import Mathlib

/-!
Verification of the `cvh-icons` desktop icon daemon core
(`src/cvh-icons` in the CodeVerseLinuxDistro repository).

This file shallowly embeds the daemon's data model and the operations the
specification talks about — the IPC protocol types and their tagged JSON
codec, the length-prefixed wire framing, the timeout-guarded read loop, the
protocol handshake, the icon-type derivation, the default grid layout, the
render/position fallback logic of `DesktopIcon`, the two bubblewrap
launch-description builders, and the supervisor's session-table reaction to
filesystem events — and proves or refutes the specification's claims about
them.

Conventions used throughout:
* `u32`/`u64` fields are embedded as `Nat`, `i32` fields as `Int`; where the
  Rust code performs a cast or wrapping arithmetic the embedding applies the
  corresponding explicit `% 2^32` reduction (release-mode two's-complement
  semantics; arithmetic that panics in Rust under every profile, such as
  division by zero, is modelled as `none`).
* Values obtained from the operating system (filesystem tests, `poll`
  results, bytes arriving on a pipe) are supplied as explicit oracle
  arguments, so every embedded operation is a pure function of its inputs.
* Floating-point fields (`f32`/`f64`) are embedded as `FloatVal`: a finite
  float is identified with its exact rational value (every finite IEEE
  float is a dyadic rational, and serde_json's shortest-representation
  printing followed by re-parsing is the identity on finite floats), while
  the non-finite values NaN and ±∞ are separate constructors, which is what
  the codec claims hinge on.
-/

namespace CvhIcons

/-- Model of an IEEE floating-point value (`f32` or `f64`) as the wire codec
sees it: either finite, identified with its exact rational value, or one of
the non-finite values. -/
inductive FloatVal
  | finite (q : ℚ)
  | nan
  | inf
  | neginf
deriving DecidableEq, Repr

/-- `DrawCommand` from `src/cvh-icons/src/lua/api.rs` — the only drawing
primitives the protocol allows. -/
inductive DrawCommand
  | fillRect (x y w h : FloatVal) (color : String)
  | strokeRect (x y w h : FloatVal) (color : String) (width : FloatVal)
  | fillCircle (cx cy r : FloatVal) (color : String)
  | strokeCircle (cx cy r : FloatVal) (color : String) (width : FloatVal)
  | line (x1 y1 x2 y2 : FloatVal) (color : String) (width : FloatVal)
  | text (text : String) (x y size : FloatVal) (color align : String)
  | image (path : String) (x y w h : FloatVal)
  | clear (color : String)
deriving DecidableEq, Repr

/-- `Position` from `src/cvh-icons/src/ipc/protocol.rs` (`x y : i32`). -/
structure Position where
  x : Int
  y : Int
deriving DecidableEq, Repr

/-- `IconType` from `src/cvh-icons/src/ipc/protocol.rs` (the IPC-side icon
classification, distinct from the local `IconType` of `icons/mod.rs`). -/
inductive IconTypeIpc
  | file
  | directory
  | application
  | symlink
  | custom (s : String)
deriving DecidableEq, Repr

/-- `IconMetadata` from `src/cvh-icons/src/ipc/protocol.rs`. -/
structure IconMetadata where
  path : String
  name : String
  mime_type : Option String
  is_directory : Bool
  size : Option Nat
  width : Nat
  height : Nat
  icon_type : IconTypeIpc
  selected : Bool
  hovered : Bool
deriving DecidableEq, Repr

/-- `IconEvent` from `src/cvh-icons/src/ipc/protocol.rs`. -/
inductive IconEvent
  | click (button : Nat) (x y : FloatVal)
  | hoverEnter
  | hoverExit
  | drop (paths : List String)
  | selected
  | deselected
deriving DecidableEq, Repr

/-- `RenderContext` from `src/cvh-icons/src/ipc/protocol.rs`. -/
structure RenderContext where
  canvas_width : Nat
  canvas_height : Nat
  device_pixel_ratio : FloatVal
deriving DecidableEq, Repr

/-- `PositionInput` from `src/cvh-icons/src/ipc/protocol.rs`. -/
structure PositionInput where
  screen_width : Nat
  screen_height : Nat
  icon_count : Nat
  icon_index : Nat
  cell_width : Option Nat
  cell_height : Option Nat
deriving DecidableEq, Repr

/-- `EventAction` from `src/cvh-icons/src/ipc/protocol.rs`. -/
structure EventAction where
  action : String
  payload : Option String
deriving DecidableEq, Repr

/-- `Request` from `src/cvh-icons/src/ipc/protocol.rs` (daemon → child). -/
inductive Request
  | handshake (version : Nat)
  | render (metadata : IconMetadata) (context : RenderContext)
  | event (event : IconEvent)
  | position (input : PositionInput)
  | shutdown
deriving DecidableEq, Repr

/-- `Response` from `src/cvh-icons/src/ipc/protocol.rs` (child → daemon). -/
inductive Response
  | handshakeAck (version : Nat) (success : Bool)
  | render (commands : List DrawCommand)
  | event (handled : Bool) (action : Option EventAction)
  | position (position : Position)
  | error (message : String)
  | shutdownAck
deriving DecidableEq, Repr

/-- `PROTOCOL_VERSION` from `src/cvh-icons/src/ipc/protocol.rs`. -/
def PROTOCOL_VERSION : Nat := 1

/-! ## i32 arithmetic helpers

Rust `i32` values, two's-complement wrapping (release-mode overflow
semantics), and the `u32 → i32` bit cast. -/

/-- Reduce an integer into the `i32` range by two's-complement wrapping. -/
def wrap32 (z : Int) : Int := (z + 2147483648) % 4294967296 - 2147483648

/-- The Rust cast `n as i32` applied to a `u32` value. -/
def toI32ofU32 (n : Nat) : Int := wrap32 n

/-- The Rust cast `z as u32` applied to an `i32` value. -/
def toU32ofI32 (z : Int) : Nat := (z % 4294967296).toNat

/-- Wrapping `i32` addition. -/
def add32 (a b : Int) : Int := wrap32 (a + b)

/-- Wrapping `i32` subtraction. -/
def sub32 (a b : Int) : Int := wrap32 (a - b)

/-- Wrapping `i32` multiplication. -/
def mul32 (a b : Int) : Int := wrap32 (a * b)

/-- Rust `i32` division: truncated toward zero; panics (here `none`) on a
zero divisor and on the sole overflowing case `i32::MIN / -1`. -/
def div32 (a b : Int) : Option Int :=
  if b = 0 ∨ (a = -2147483648 ∧ b = -1) then none else some (a.tdiv b)

/-- Rust `i32` remainder: sign of the dividend; panics (here `none`) on a
zero divisor and on `i32::MIN % -1`. -/
def mod32 (a b : Int) : Option Int :=
  if b = 0 ∨ (a = -2147483648 ∧ b = -1) then none else some (a.tmod b)

/-! ## Default grid layout (`DesktopIcon::default_position`)

`src/cvh-icons/src/icons/mod.rs` lines 520–539. All four numeric inputs are
`u32` in the source and are cast to `i32` before the arithmetic. -/

/-- `DesktopIcon::default_position` from `src/cvh-icons/src/icons/mod.rs`:

    let cell_w = cell_width.unwrap_or(96) as i32;
    let cell_h = cell_height.unwrap_or(96) as i32;
    let margin = 20i32;
    let cols = ((screen_width as i32 - margin * 2) / cell_w).max(1);
    let col = (icon_index as i32) % cols;
    let row = (icon_index as i32) / cols;
    Position { x: margin + col * cell_w, y: margin + row * cell_h }
-/
def default_position (screen_width icon_index : Nat)
    (cell_width cell_height : Option Nat) : Option Position :=
  let cell_w : Int := toI32ofU32 (cell_width.getD 96)
  let cell_h : Int := toI32ofU32 (cell_height.getD 96)
  let margin : Int := 20
  (div32 (sub32 (toI32ofU32 screen_width) (margin * 2)) cell_w).bind fun q =>
    let cols := max q 1
    (mod32 (toI32ofU32 icon_index) cols).bind fun col =>
      (div32 (toI32ofU32 icon_index) cols).bind fun row =>
        some ⟨add32 margin (mul32 col cell_w), add32 margin (mul32 row cell_h)⟩

/-- The grid formula exactly as claim C9 (spec §4.D) states it, over
unbounded integers: `cell_w = cell_width ?? 96`, `cell_h = cell_height ??
96`, `margin = 20`, `cols = max(1, floor((screen_width − 2·margin) /
cell_w))`, result `(margin + (index mod cols)·cell_w, margin + floor(index
/ cols)·cell_h)`. -/
def default_position_claim (screen_width icon_index : Nat)
    (cell_width cell_height : Option Nat) : Position :=
  let cell_w : Int := cell_width.getD 96
  let cell_h : Int := cell_height.getD 96
  let margin : Int := 20
  let cols : Int := max 1 (((screen_width : Int) - 2 * margin).fdiv cell_w)
  ⟨margin + ((icon_index : Int) % cols) * cell_w,
   margin + ((icon_index : Int) / cols) * cell_h⟩

/-! ### Range lemmas for the wrapping helpers -/

lemma wrap32_eq_self {z : Int} (h1 : -2147483648 ≤ z) (h2 : z < 2147483648) :
    wrap32 z = z := by
  unfold wrap32
  omega

lemma toI32ofU32_eq_self {n : Nat} (h : n < 2147483648) :
    toI32ofU32 n = n := by
  unfold toI32ofU32 wrap32
  omega

lemma tdiv_nonpos_of_nonpos_of_nonneg {a b : Int} (ha : a ≤ 0) (hb : 0 ≤ b) :
    a.tdiv b ≤ 0 := by
  have h := Int.tdiv_nonneg (a := -a) (b := b) (by omega) hb
  rw [Int.neg_tdiv] at h
  omega

/-- The `max` clamp erases the difference between the truncated division the
Rust code performs and the floor division the specification's formula uses:
truncation and floor differ only on negative non-exact quotients, and those
are clamped to `1` on both sides. -/
lemma ediv_nonpos_of_neg_of_pos {s c : Int} (hs : s < 0) (hc : 0 < c) :
    s / c ≤ 0 := by
  have h := Int.ediv_mul_le s (by omega : c ≠ 0)
  nlinarith [h]

lemma max_tdiv_one_eq_max_one_fdiv (s c : Int) (hc : 0 < c) :
    max (s.tdiv c) 1 = max 1 (s.fdiv c) := by
  rw [Int.fdiv_eq_ediv s hc.le]
  rcases le_or_lt 0 s with hs | hs
  · rw [Int.tdiv_eq_ediv hs hc.le, max_comm]
  · have h1 : s.tdiv c ≤ 0 := tdiv_nonpos_of_nonpos_of_nonneg hs.le hc.le
    have h2 : s / c ≤ 0 := ediv_nonpos_of_neg_of_pos hs hc
    rw [max_eq_right (by omega : s.tdiv c ≤ 1), max_eq_left (by omega : (1:Int) ≥ s / c)]

lemma div32_eq_of_pos {a b : Int} (hb : 0 < b) : div32 a b = some (a.tdiv b) := by
  rw [div32, if_neg]
  omega

lemma mod32_eq_of_pos {a b : Int} (hb : 0 < b) : mod32 a b = some (a.tmod b) := by
  rw [mod32, if_neg]
  omega

lemma add32_eq_self {a b : Int} (h1 : -2147483648 ≤ a + b) (h2 : a + b < 2147483648) :
    add32 a b = a + b := by
  rw [add32, wrap32_eq_self h1 h2]

lemma sub32_eq_self {a b : Int} (h1 : -2147483648 ≤ a - b) (h2 : a - b < 2147483648) :
    sub32 a b = a - b := by
  rw [sub32, wrap32_eq_self h1 h2]

lemma mul32_eq_self {a b : Int} (h1 : -2147483648 ≤ a * b) (h2 : a * b < 2147483648) :
    mul32 a b = a * b := by
  rw [mul32, wrap32_eq_self h1 h2]

/-! ## Claim C9 — the default grid layout

The claim states the grid formula over unbounded integers for *every*
`u32` input. The code casts its `u32` inputs to `i32` first, so an
`icon_index` of `2^31` wraps to `i32::MIN` and the truncated division and
remainder then produce negative coordinates; the claim fails there. Under
the i32-range side conditions below the code does compute exactly the
claimed formula. -/

/-- C9 (amended): provided `screen_width`, `icon_index` and the effective
cell sizes lie below `2^31` (so the `u32 → i32` casts are value-preserving),
the cell width is nonzero, and the claimed `y` fits in `i32`, the default
position equals the grid formula of the claim: `cell_w = cell_width ?? 96`,
`cell_h = cell_height ?? 96`, `margin = 20`,
`cols = max(1, floor((screen_width − 2·margin)/cell_w))`,
`x = margin + (icon_index mod cols)·cell_w`,
`y = margin + floor(icon_index / cols)·cell_h`. -/
theorem C9_default_position_grid (sw idx : Nat) (cwo cho : Option Nat)
    (hsw : sw < 2147483648) (hidx : idx < 2147483648)
    (hcw : cwo.getD 96 < 2147483648) (hch : cho.getD 96 < 2147483648)
    (hcwpos : 0 < cwo.getD 96)
    (hy : (default_position_claim sw idx cwo cho).y < 2147483648) :
    default_position sw idx cwo cho = some (default_position_claim sw idx cwo cho) := by
  obtain ⟨cw, hcwd⟩ : ∃ c, cwo.getD 96 = c := ⟨_, rfl⟩
  obtain ⟨ch, hchd⟩ : ∃ c, cho.getD 96 = c := ⟨_, rfl⟩
  rw [hcwd] at hcw hcwpos
  rw [hchd] at hch
  simp only [default_position, default_position_claim, hcwd, hchd] at hy ⊢
  rw [toI32ofU32_eq_self hsw, toI32ofU32_eq_self hcw, toI32ofU32_eq_self hch,
    toI32ofU32_eq_self hidx]
  have esub : sub32 ((sw : Int)) (20 * 2) = ((sw : Int) - 20 * 2) := by
    apply sub32_eq_self <;> omega
  rw [esub]
  have ediv1 : div32 ((sw : Int) - 20 * 2) ((cw : Int)) =
      some (((sw : Int) - 20 * 2).tdiv cw) := by
    apply div32_eq_of_pos
    omega
  rw [ediv1, Option.some_bind]
  simp only [show ((20 : Int) * 2) = 40 by norm_num, show ((2 : Int) * 20) = 40 by norm_num]
    at hy ⊢
  rw [max_tdiv_one_eq_max_one_fdiv ((sw : Int) - 40) ((cw : Int)) (by omega)]
  set C : Int := 1 ⊔ ((sw : Int) - 40).fdiv (cw : Int) with hCdef
  have hC1 : 1 ≤ C := le_max_left _ _
  have hC31 : C < 2147483648 := by
    rw [hCdef, Int.fdiv_eq_ediv _ (by omega : (0:Int) ≤ (cw : Int))]
    rcases le_or_lt ((sw : Int) - 40) 0 with hs | hs
    · have h2 : ((sw : Int) - 40) / (cw : Int) ≤ 0 := by
        rcases eq_or_lt_of_le hs with he | hl
        · rw [he, Int.zero_ediv]
        · exact ediv_nonpos_of_neg_of_pos hl (by omega)
      rw [sup_eq_left.mpr (by omega)]
      omega
    · have h2 := Int.ediv_le_self ((cw : Int)) (by omega : (0:Int) ≤ (sw : Int) - 40)
      rcases le_or_lt (((sw : Int) - 40) / (cw : Int)) 1 with hle | hgt
      · rw [sup_eq_left.mpr hle]; omega
      · rw [sup_eq_right.mpr hgt.le]; omega
  rw [mod32_eq_of_pos (show (0:Int) < C by omega),
    div32_eq_of_pos (show (0:Int) < C by omega), Option.some_bind, Option.some_bind]
  rw [Int.tmod_eq_emod (Int.natCast_nonneg idx) (by omega : (0:Int) ≤ C),
    Int.tdiv_eq_ediv (Int.natCast_nonneg idx) (by omega : (0:Int) ≤ C)]
  have hcol0 : 0 ≤ (idx : Int) % C := Int.emod_nonneg _ (by omega)
  have hcollt : (idx : Int) % C < C := Int.emod_lt_of_pos _ (by omega)
  have hrow0 : 0 ≤ (idx : Int) / C := Int.ediv_nonneg (Int.natCast_nonneg idx) (by omega)
  have hxb : ((idx : Int) % C) * (cw : Int) < 2147483628 := by
    rcases eq_or_lt_of_le hC1 with h1 | h1
    · have hc0 : (idx : Int) % C = 0 := by omega
      rw [hc0, zero_mul]; omega
    · have hCeq : C = ((sw : Int) - 40) / (cw : Int) := by
        have hX : 1 < ((sw : Int) - 40).fdiv (cw : Int) := by
          rw [hCdef] at h1
          rcases lt_sup_iff.mp h1 with h | h
          · omega
          · exact h
        rw [hCdef, sup_eq_right.mpr hX.le, Int.fdiv_eq_ediv _ (by omega : (0:Int) ≤ (cw : Int))]
      have hmul : C * (cw : Int) ≤ (sw : Int) - 40 := by
        rw [hCeq]; exact Int.ediv_mul_le _ (by omega)
      have h3 : ((idx : Int) % C) * (cw : Int) ≤ (C - 1) * (cw : Int) :=
        mul_le_mul_of_nonneg_right (by omega) (by omega)
      have h4 : (C - 1) * (cw : Int) = C * (cw : Int) - (cw : Int) := by ring
      have hsw31 : ((sw : Int)) < 2147483648 := by omega
      linarith
  have hyb : ((idx : Int) / C) * (ch : Int) < 2147483628 := by linarith [hy]
  have hx0 : 0 ≤ ((idx : Int) % C) * (cw : Int) := mul_nonneg hcol0 (by omega)
  have hy0 : 0 ≤ ((idx : Int) / C) * (ch : Int) :=
    mul_nonneg hrow0 (Int.natCast_nonneg ch)
  have em1 : mul32 ((idx : Int) % C) ((cw : Int)) = ((idx : Int) % C) * (cw : Int) := by
    apply mul32_eq_self <;> linarith
  have em2 : mul32 ((idx : Int) / C) ((ch : Int)) = ((idx : Int) / C) * (ch : Int) := by
    apply mul32_eq_self <;> linarith
  have ea1 : add32 20 (((idx : Int) % C) * (cw : Int)) =
      20 + ((idx : Int) % C) * (cw : Int) := by
    apply add32_eq_self <;> linarith
  have ea2 : add32 20 (((idx : Int) / C) * (ch : Int)) =
      20 + ((idx : Int) / C) * (ch : Int) := by
    apply add32_eq_self <;> linarith
  rw [em1, em2, ea1, ea2]

/-- C9 (counterexample): at `icon_index = 2^31` (a legal `u32`) the code
returns `x = -268` while the claimed grid formula gives `x = 308`: the cast
`icon_index as i32` wraps to `i32::MIN` and Rust `%` takes the sign of the
dividend, so the claim as stated is false. -/
theorem C9_counterexample :
    default_position 1920 2147483648 (some 96) (some 96) ≠
      some (default_position_claim 1920 2147483648 (some 96) (some 96)) := by decide

/-- C9 witness: the amended theorem applied at the claim’s own literal
example, `screen_width=1920, icon_index=20, cell sizes 96`, giving
`Position{x:116, y:116}`. -/
theorem C9_witness :
    (default_position_claim 1920 20 (some 96) (some 96)).y < 2147483648 ∧
    default_position 1920 20 (some 96) (some 96) =
      some (default_position_claim 1920 20 (some 96) (some 96)) ∧
    default_position_claim 1920 20 (some 96) (some 96) = ⟨116, 116⟩ :=
  ⟨by decide,
   C9_default_position_grid 1920 20 (some 96) (some 96) (by decide) (by decide)
     (by decide) (by decide) (by decide) (by decide),
   by decide⟩

/-! ## Claim C8 — icon-type derivation (`DesktopIcon::determine_type`) -/


/-- Local `IconType` from `src/cvh-icons/src/icons/mod.rs`. -/
inductive IconType
  | file
  | folder
  | symlink
  | executable
  | image
  | document
  | archive
  | video
  | audio
  | unknown
deriving DecidableEq, Repr

/-- The filesystem facts `DesktopIcon::determine_type` queries about its
path argument: `is_symlink()`, `is_dir()`, `extension()` (`none` when the
path has no extension or it is not UTF-8), and the file mode from
`metadata()` (`none` when the metadata call fails). -/
structure PathFsInfo where
  is_symlink : Bool
  is_dir : Bool
  extension : Option String
  mode : Option Nat
deriving DecidableEq, Repr

/-- The Rust `str::to_lowercase` as applied to extension strings
(character-wise lowering; extensions that reach the table are ASCII). -/
def lowerString (s : String) : String := ⟨s.data.map Char.toLower⟩

/-- `DesktopIcon::determine_type` from `src/cvh-icons/src/icons/mod.rs`
lines 117–163. The multi-pattern Rust `match` arms on the lowercased
extension are expanded into the same ordered equality tests. -/
def determine_type (p : PathFsInfo) : IconType :=
  if p.is_symlink then .symlink
  else if p.is_dir then .folder
  else match p.extension with
    | some ext =>
      let e := lowerString ext
      if e = "sh" ∨ e = "bash" ∨ e = "zsh" ∨ e = "fish" ∨ e = "py" ∨ e = "rb" ∨ e = "pl" then
        .executable
      else if e = "png" ∨ e = "jpg" ∨ e = "jpeg" ∨ e = "gif" ∨ e = "bmp" ∨ e = "svg" ∨
          e = "webp" ∨ e = "ico" then
        .image
      else if e = "pdf" ∨ e = "doc" ∨ e = "docx" ∨ e = "odt" ∨ e = "txt" ∨ e = "md" ∨
          e = "rst" then
        .document
      else if e = "zip" ∨ e = "tar" ∨ e = "gz" ∨ e = "bz2" ∨ e = "xz" ∨ e = "7z" ∨
          e = "rar" ∨ e = "zst" then
        .archive
      else if e = "mp4" ∨ e = "mkv" ∨ e = "avi" ∨ e = "mov" ∨ e = "webm" ∨ e = "flv" then
        .video
      else if e = "mp3" ∨ e = "flac" ∨ e = "wav" ∨ e = "ogg" ∨ e = "m4a" ∨ e = "opus" then
        .audio
      else .file
    | none =>
      match p.mode with
      | some m => if m &&& 0o111 ≠ 0 then .executable else .file
      | none => .file

/-- The fixed extension table of the specification's Glossary, as an
association list in the spec's order. -/
def extension_table : List (String × IconType) :=
  [("sh", .executable), ("bash", .executable), ("zsh", .executable),
   ("fish", .executable), ("py", .executable), ("rb", .executable),
   ("pl", .executable),
   ("png", .image), ("jpg", .image), ("jpeg", .image), ("gif", .image),
   ("bmp", .image), ("svg", .image), ("webp", .image), ("ico", .image),
   ("pdf", .document), ("doc", .document), ("docx", .document),
   ("odt", .document), ("txt", .document), ("md", .document),
   ("rst", .document),
   ("zip", .archive), ("tar", .archive), ("gz", .archive), ("bz2", .archive),
   ("xz", .archive), ("7z", .archive), ("rar", .archive), ("zst", .archive),
   ("mp4", .video), ("mkv", .video), ("avi", .video), ("mov", .video),
   ("webm", .video), ("flv", .video),
   ("mp3", .audio), ("flac", .audio), ("wav", .audio), ("ogg", .audio),
   ("m4a", .audio), ("opus", .audio)]

/-- The executable-bit test of the source: `metadata.permissions().mode() &
0o111 != 0`, false when metadata cannot be read. -/
def execBit (mode : Option Nat) : Bool :=
  match mode with
  | some m => m &&& 0o111 != 0
  | none => false

/-- The derivation rules exactly as claim C8 states them: symlink test,
directory test, case-insensitive lookup of the extension in the fixed
table, and, when the lookup finds no match, an executable-bit test before
falling back to `File`. -/
def determine_type_claim (p : PathFsInfo) : IconType :=
  if p.is_symlink then .symlink
  else if p.is_dir then .folder
  else
    match extension_table.lookup (lowerString (p.extension.getD "")) with
    | some k => k
    | none => if execBit p.mode then .executable else .file

/-- The amended rules: as the claim, except that the executable-bit test is
reached only for an extensionless path; a path whose extension matches no
table entry is classified `File` regardless of its mode. -/
def determine_type_amended (p : PathFsInfo) : IconType :=
  if p.is_symlink then .symlink
  else if p.is_dir then .folder
  else
    match p.extension with
    | some ext => (extension_table.lookup (lowerString ext)).getD .file
    | none => if execBit p.mode then .executable else .file

/-- C8 (counterexample): a path with the unmatched extension `xyz` and an
executable file mode (`0o755`). The code classifies it `File` because the
executable-bit test is reached only for extensionless paths, while the
claim's rules (executable-bit test on any failed table lookup) classify it
`Executable`. -/
theorem C8_counterexample :
    determine_type ⟨false, false, some "xyz", some 0o755⟩ = IconType.file ∧
    determine_type_claim ⟨false, false, some "xyz", some 0o755⟩ = IconType.executable := by
  constructor <;> decide

/-- C8 (amended): for every path, the icon kind is derived by the claimed
rules with one correction — symlink test first, directory test next, then a
case-insensitive lookup of the extension in the fixed table, but the
executable-bit test applies only when the path has no extension at all; an
extension that matches no table entry yields `File` regardless of the file
mode. -/
theorem C8_determine_type (p : PathFsInfo) :
    determine_type p = determine_type_amended p := by
  obtain ⟨s, d, ext, mode⟩ := p
  cases s
  · cases d
    · cases ext with
      | none =>
        cases mode with
        | none => rfl
        | some m =>
          simp only [determine_type, determine_type_amended, execBit]
          by_cases hm : m &&& 0o111 = 0 <;> simp [hm]
      | some e =>
        simp only [determine_type, determine_type_amended, Bool.false_eq_true,
          if_false]
        generalize lowerString e = t
        by_cases h1 : t = "sh" ∨ t = "bash" ∨ t = "zsh" ∨ t = "fish" ∨ t = "py" ∨
            t = "rb" ∨ t = "pl"
        · rcases h1 with h|h|h|h|h|h|h <;> subst h <;> rfl
        · rw [if_neg h1]
          by_cases h2 : t = "png" ∨ t = "jpg" ∨ t = "jpeg" ∨ t = "gif" ∨ t = "bmp" ∨
              t = "svg" ∨ t = "webp" ∨ t = "ico"
          · rcases h2 with h|h|h|h|h|h|h|h <;> subst h <;> rfl
          · rw [if_neg h2]
            by_cases h3 : t = "pdf" ∨ t = "doc" ∨ t = "docx" ∨ t = "odt" ∨ t = "txt" ∨
                t = "md" ∨ t = "rst"
            · rcases h3 with h|h|h|h|h|h|h <;> subst h <;> rfl
            · rw [if_neg h3]
              by_cases h4 : t = "zip" ∨ t = "tar" ∨ t = "gz" ∨ t = "bz2" ∨ t = "xz" ∨
                  t = "7z" ∨ t = "rar" ∨ t = "zst"
              · rcases h4 with h|h|h|h|h|h|h|h <;> subst h <;> rfl
              · rw [if_neg h4]
                by_cases h5 : t = "mp4" ∨ t = "mkv" ∨ t = "avi" ∨ t = "mov" ∨
                    t = "webm" ∨ t = "flv"
                · rcases h5 with h|h|h|h|h|h <;> subst h <;> rfl
                · rw [if_neg h5]
                  by_cases h6 : t = "mp3" ∨ t = "flac" ∨ t = "wav" ∨ t = "ogg" ∨
                      t = "m4a" ∨ t = "opus"
                  · rcases h6 with h|h|h|h|h|h <;> subst h <;> rfl
                  · rw [if_neg h6]
                    push_neg at h1 h2 h3 h4 h5 h6
                    obtain ⟨a1, a2, a3, a4, a5, a6, a7⟩ := h1
                    obtain ⟨b1, b2, b3, b4, b5, b6, b7, b8⟩ := h2
                    obtain ⟨c1, c2, c3, c4, c5, c6, c7⟩ := h3
                    obtain ⟨d1, d2, d3, d4, d5, d6, d7, d8⟩ := h4
                    obtain ⟨e1, e2, e3, e4, e5, e6⟩ := h5
                    obtain ⟨f1, f2, f3, f4, f5, f6⟩ := h6
                    simp only [extension_table, List.lookup,
                      beq_eq_false_iff_ne.mpr a1, beq_eq_false_iff_ne.mpr a2,
                      beq_eq_false_iff_ne.mpr a3, beq_eq_false_iff_ne.mpr a4,
                      beq_eq_false_iff_ne.mpr a5, beq_eq_false_iff_ne.mpr a6,
                      beq_eq_false_iff_ne.mpr a7,
                      beq_eq_false_iff_ne.mpr b1, beq_eq_false_iff_ne.mpr b2,
                      beq_eq_false_iff_ne.mpr b3, beq_eq_false_iff_ne.mpr b4,
                      beq_eq_false_iff_ne.mpr b5, beq_eq_false_iff_ne.mpr b6,
                      beq_eq_false_iff_ne.mpr b7, beq_eq_false_iff_ne.mpr b8,
                      beq_eq_false_iff_ne.mpr c1, beq_eq_false_iff_ne.mpr c2,
                      beq_eq_false_iff_ne.mpr c3, beq_eq_false_iff_ne.mpr c4,
                      beq_eq_false_iff_ne.mpr c5, beq_eq_false_iff_ne.mpr c6,
                      beq_eq_false_iff_ne.mpr c7,
                      beq_eq_false_iff_ne.mpr d1, beq_eq_false_iff_ne.mpr d2,
                      beq_eq_false_iff_ne.mpr d3, beq_eq_false_iff_ne.mpr d4,
                      beq_eq_false_iff_ne.mpr d5, beq_eq_false_iff_ne.mpr d6,
                      beq_eq_false_iff_ne.mpr d7, beq_eq_false_iff_ne.mpr d8,
                      beq_eq_false_iff_ne.mpr e1, beq_eq_false_iff_ne.mpr e2,
                      beq_eq_false_iff_ne.mpr e3, beq_eq_false_iff_ne.mpr e4,
                      beq_eq_false_iff_ne.mpr e5, beq_eq_false_iff_ne.mpr e6,
                      beq_eq_false_iff_ne.mpr f1, beq_eq_false_iff_ne.mpr f2,
                      beq_eq_false_iff_ne.mpr f3, beq_eq_false_iff_ne.mpr f4,
                      beq_eq_false_iff_ne.mpr f5, beq_eq_false_iff_ne.mpr f6,
                      Option.getD]
    · rfl
  · rfl

/-! ## Claim C4 — length-prefixed wire framing (`LuaProcess::send_request`,
`LuaProcess::receive_response_with_timeout`) -/

/-- `MAX_MESSAGE_SIZE` from `src/cvh-icons/src/lua/process.rs` (1 MiB). -/
def MAX_MESSAGE_SIZE : Nat := 1024 * 1024

/-- `(len as u32).to_le_bytes()`: the 4 little-endian bytes of a length
value (the `usize → u32` cast wraps, which the byte formulas absorb). -/
def le4 (n : Nat) : List Nat :=
  [n % 256, n / 256 % 256, n / 65536 % 256, n / 16777216 % 256]

/-- `u32::from_le_bytes` on the 4-byte length header. -/
def leDecode (bs : List Nat) : Nat :=
  match bs with
  | [b0, b1, b2, b3] => b0 + 256 * b1 + 65536 * b2 + 16777216 * b3
  | _ => 0

/-- Framing error kinds of the receive path. -/
inductive RecvErr
  | framing
  | oversize
deriving DecidableEq, Repr

/-- The framing stage of `LuaProcess::send_request`
(`src/cvh-icons/src/lua/process.rs` lines 250–272): given the serialized
request bytes, either rejects the request as too large — in which case
nothing is written to the stream — or returns the exact byte sequence
written to the child's stdin: the 4-byte little-endian length followed by
the data. -/
def send_frame (data : List Nat) : Option (List Nat) :=
  if data.length > MAX_MESSAGE_SIZE then none
  else some (le4 data.length ++ data)

/-- The framing stage of `LuaProcess::receive_response_with_timeout`
(`src/cvh-icons/src/lua/process.rs` lines 283–305): read a 4-byte length
header, validate the declared length against `MAX_MESSAGE_SIZE` before
reading any body byte, then read exactly that many body bytes. The result
is paired with the number of stream bytes consumed, so that "rejected
before reading any body byte" is visible as a consumed count of 4. -/
def recv_frame (stream : List Nat) : Except RecvErr (List Nat) × Nat :=
  if stream.length < 4 then (.error .framing, stream.length)
  else
    let len := leDecode (stream.take 4)
    if len > MAX_MESSAGE_SIZE then (.error .oversize, 4)
    else if stream.length < 4 + len then (.error .framing, stream.length)
    else (.ok ((stream.drop 4).take len), 4 + len)

lemma leDecode_le4 (n : Nat) (h : n < 4294967296) : leDecode (le4 n) = n := by
  simp only [le4, leDecode]
  omega

/-- C4 (confirmed): every frame the channel writes is a 4-byte
little-endian `u32` length `L` followed by exactly the `L` data bytes, with
`L ≤ 1 MiB`; an over-long request is rejected with nothing written; on
receive, a declared length of exactly 1 MiB proceeds to the body while
1 MiB + 1 is rejected having consumed only the 4 header bytes. -/
theorem C4_wire_framing :
    (∀ data : List Nat, data.length ≤ MAX_MESSAGE_SIZE →
      send_frame data = some (le4 data.length ++ data) ∧
      (le4 data.length).length = 4 ∧
      leDecode (le4 data.length) = data.length) ∧
    (∀ data : List Nat, data.length > MAX_MESSAGE_SIZE → send_frame data = none) ∧
    (∀ body : List Nat, body.length = MAX_MESSAGE_SIZE →
      recv_frame (le4 MAX_MESSAGE_SIZE ++ body) = (.ok body, 4 + MAX_MESSAGE_SIZE)) ∧
    (∀ rest : List Nat,
      recv_frame (le4 (MAX_MESSAGE_SIZE + 1) ++ rest) = (.error .oversize, 4)) := by
  refine ⟨?_, ?_, ?_, ?_⟩
  · intro data h
    refine ⟨?_, rfl, leDecode_le4 data.length (by simp [MAX_MESSAGE_SIZE] at h; omega)⟩
    rw [send_frame, if_neg (by omega)]
  · intro data h
    rw [send_frame, if_pos h]
  · intro body h
    have hlen : (le4 MAX_MESSAGE_SIZE ++ body).length = 4 + MAX_MESSAGE_SIZE := by
      simp [le4, h]; omega
    have htake : (le4 MAX_MESSAGE_SIZE ++ body).take 4 = le4 MAX_MESSAGE_SIZE := by
      simp [le4]
    have hdrop : (le4 MAX_MESSAGE_SIZE ++ body).drop 4 = body := by
      simp [le4]
    simp only [recv_frame, hlen, htake, hdrop,
      leDecode_le4 MAX_MESSAGE_SIZE (by norm_num [MAX_MESSAGE_SIZE])]
    rw [if_neg (by omega), if_neg (by omega), if_neg (by omega), ← h, List.take_length]
  · intro rest
    have htake : (le4 (MAX_MESSAGE_SIZE + 1) ++ rest).take 4 = le4 (MAX_MESSAGE_SIZE + 1) := by
      simp [le4]
    have hlen : (le4 (MAX_MESSAGE_SIZE + 1) ++ rest).length = 4 + rest.length := by
      simp [le4]; omega
    simp only [recv_frame, hlen, htake,
      leDecode_le4 (MAX_MESSAGE_SIZE + 1) (by norm_num [MAX_MESSAGE_SIZE])]
    rw [if_neg (by omega), if_pos (by omega)]

/-- C4 witness: the framing theorem applied to a concrete 3-byte message
and to a stream declaring 1 MiB + 1. -/
theorem C4_witness :
    ([(7 : Nat), 8, 9].length ≤ MAX_MESSAGE_SIZE ∧
      send_frame [7, 8, 9] = some (le4 [(7 : Nat), 8, 9].length ++ [7, 8, 9]) ∧
      (le4 [(7 : Nat), 8, 9].length).length = 4 ∧
      leDecode (le4 [(7 : Nat), 8, 9].length) = [(7 : Nat), 8, 9].length) ∧
    recv_frame (le4 (MAX_MESSAGE_SIZE + 1) ++ []) = (.error .oversize, 4) :=
  ⟨⟨by decide, C4_wire_framing.1 [7, 8, 9] (by decide)⟩,
   C4_wire_framing.2.2.2 []⟩

/-! ## Claim C5 — the timeout-guarded read loop
(`LuaProcess::read_exact_with_timeout`) -/

/-- What the OS reports for one iteration of the byte-reading loop of
`LuaProcess::read_exact_with_timeout`: `poll` returned zero; `POLLERR` was
set; `POLLHUP` without `POLLIN`; or the descriptor was readable and the
subsequent `read` returned `n` bytes (`n = 0` is end-of-file) after
`elapsedMs` milliseconds of wall-clock time spent in the iteration. -/
inductive PollStep
  | timedOut
  | errCond
  | hangup
  | ready (n : Nat) (elapsedMs : Nat)
deriving DecidableEq, Repr

/-- The error outcomes of the read loop, in the source's order of checks. -/
inductive IoErr
  | timeout
  | pollErrCond
  | peerClosed
  | eofEarly
deriving DecidableEq, Repr

/-- `LuaProcess::read_exact_with_timeout` from
`src/cvh-icons/src/lua/process.rs` lines 311–372. `timeoutMs` is
`timeout.as_millis()`, computed once before the loop; the source passes
`min(timeout_ms, i32::MAX)` to every `poll` call and never decrements it.
The oracle `steps` supplies the OS behaviour of successive iterations (an
exhausted oracle reads as a silent peer, i.e. a poll timeout). The result
is paired with the list of timeout arguments handed to the successive
`poll` calls, which is what claim C5 is about. -/
def read_exact_with_timeout (timeoutMs : Nat) :
    Nat → List PollStep → Except IoErr Unit × List Nat
  | 0, _ => (.ok (), [])
  | _ + 1, [] => (.error .timeout, [])
  | needed + 1, s :: rest =>
    let arg := min timeoutMs 2147483647
    match s with
    | .timedOut => (.error .timeout, [arg])
    | .errCond => (.error .pollErrCond, [arg])
    | .hangup => (.error .peerClosed, [arg])
    | .ready 0 _ => (.error .eofEarly, [arg])
    | .ready (n + 1) _ =>
      let r := read_exact_with_timeout timeoutMs (needed + 1 - (n + 1)) rest
      (r.1, arg :: r.2)

/-- The `poll` timeout arguments the claimed algorithm would use: the
original timeout decremented, at each iteration, by the wall-clock time
already consumed by the earlier iterations. -/
def remaining_poll_args (timeoutMs : Nat) :
    Nat → List PollStep → List Nat
  | 0, _ => []
  | _ + 1, [] => []
  | needed + 1, s :: rest =>
    match s with
    | .ready (n + 1) e =>
      timeoutMs :: remaining_poll_args (timeoutMs - e) (needed + 1 - (n + 1)) rest
    | _ => [timeoutMs]

/-- C5 (counterexample): with `T = 500 ms` and a first iteration that reads
one byte after 100 ms, the code's second `poll` is again called with the
full 500 ms, not the remaining 400 ms the claim requires. -/
theorem C5_counterexample :
    (read_exact_with_timeout 500 4 [.ready 1 100, .timedOut]).2 ≠
      remaining_poll_args 500 4 [.ready 1 100, .timedOut] := by decide

/-- C5 (amended): every iteration of the byte-reading loop calls `poll`
with the same, full original timeout (capped at `i32::MAX` ms) — the source
never decrements it by elapsed time; a `poll` result of zero fails with
`Timeout` and a hangup without readable data fails with `PeerClosed`; in
particular a peer that writes nothing makes the call return `Timeout` after
a single `poll` wait of the full timeout. -/
theorem C5_read_loop (timeoutMs : Nat) :
    (∀ needed steps, ∀ a ∈ (read_exact_with_timeout timeoutMs needed steps).2,
      a = min timeoutMs 2147483647) ∧
    (∀ needed rest, 0 < needed →
      read_exact_with_timeout timeoutMs needed (.timedOut :: rest) =
        (.error .timeout, [min timeoutMs 2147483647])) ∧
    (∀ needed rest, 0 < needed →
      read_exact_with_timeout timeoutMs needed (.hangup :: rest) =
        (.error .peerClosed, [min timeoutMs 2147483647])) ∧
    (∀ needed, 0 < needed →
      read_exact_with_timeout timeoutMs needed [] = (.error .timeout, [])) := by
  refine ⟨?_, ?_, ?_, ?_⟩
  · intro needed steps
    induction steps generalizing needed with
    | nil =>
      intro a ha
      cases needed <;> simp [read_exact_with_timeout] at ha
    | cons s rest ih =>
      intro a ha
      cases needed with
      | zero => simp [read_exact_with_timeout] at ha
      | succ k =>
        cases s with
        | timedOut => simp [read_exact_with_timeout] at ha; omega
        | errCond => simp [read_exact_with_timeout] at ha; omega
        | hangup => simp [read_exact_with_timeout] at ha; omega
        | ready n e =>
          cases n with
          | zero => simp [read_exact_with_timeout] at ha; omega
          | succ m =>
            simp only [read_exact_with_timeout, List.mem_cons] at ha
            rcases ha with h | h
            · omega
            · exact ih _ a h
  · intro needed rest h
    cases needed with
    | zero => omega
    | succ k => rfl
  · intro needed rest h
    cases needed with
    | zero => omega
    | succ k => rfl
  · intro needed h
    cases needed with
    | zero => omega
    | succ k => rfl

/-- C5 witness: the loop theorem applied to a silent peer and to a hung-up
peer at `T = 500 ms`, `needed = 4`. -/
theorem C5_witness :
    (0 < 4 ∧
      read_exact_with_timeout 500 4 [.timedOut] = (.error .timeout, [min 500 2147483647])) ∧
    (0 < 4 ∧
      read_exact_with_timeout 500 4 [.hangup] = (.error .peerClosed, [min 500 2147483647])) :=
  ⟨⟨by decide, (C5_read_loop 500).2.1 4 [] (by decide)⟩,
   ⟨by decide, (C5_read_loop 500).2.2.1 4 [] (by decide)⟩⟩

/-! ## Claim C6 — the protocol handshake (`LuaProcess::perform_handshake`) -/

/-- The failure kinds of `LuaProcess::perform_handshake`, in the order the
source checks them (the source reports them as `anyhow` messages; the
`notSuccess` bail is the one whose message reads "version mismatch
(local…, remote…)"). -/
inductive HandshakeErr
  | notSuccess
  | versionMismatch
  | childError (message : String)
  | unexpectedResponse
  | channelFailed (message : String)
deriving DecidableEq, Repr

/-- `LuaProcess::perform_handshake` from `src/cvh-icons/src/lua/process.rs`
lines 220–247, as a function of the reply obtained for the initial
`Handshake` request: `.error` when `send_request`/`receive_response`
failed, `.ok r` when the child replied `r`. Returns the outcome together
with the session's handshake-complete flag, which starts `false` and is set
only on the success path. -/
def perform_handshake (reply : Except String Response) :
    Except HandshakeErr Unit × Bool :=
  match reply with
  | .error e => (.error (.channelFailed e), false)
  | .ok (.handshakeAck version success) =>
    if success = false then (.error .notSuccess, false)
    else if version ≠ PROTOCOL_VERSION then (.error .versionMismatch, false)
    else (.ok (), true)
  | .ok (.error m) => (.error (.childError m), false)
  | .ok _ => (.error .unexpectedResponse, false)

/-- C6 (confirmed): the handshake-complete flag becomes true exactly when
the child's reply is `HandshakeAck` with `success = true` and `version`
equal to the daemon's protocol version 1; every other reply — a different
version (e.g. 2 with success true), `success = false`, an `Error`, any
other variant, or a channel failure — makes spawn fail with the flag still
false. -/
theorem C6_handshake_flag (reply : Except String Response) :
    ((perform_handshake reply).2 = true ↔
      reply = .ok (.handshakeAck PROTOCOL_VERSION true)) ∧
    ((perform_handshake reply).1 = .ok () ↔
      reply = .ok (.handshakeAck PROTOCOL_VERSION true)) := by
  rcases reply with e | r
  · simp [perform_handshake]
  · rcases r with ⟨v, s⟩ | c | ⟨h, a⟩ | p | m | _
    · cases s
      · simp [perform_handshake, PROTOCOL_VERSION]
      · by_cases hv : v = 1
        · subst hv
          simp [perform_handshake, PROTOCOL_VERSION]
        · simp [perform_handshake, PROTOCOL_VERSION, hv]
    · simp [perform_handshake]
    · simp [perform_handshake]
    · simp [perform_handshake]
    · simp [perform_handshake]
    · simp [perform_handshake]

/-- C6 example from the spec's scenario 4: a `HandshakeAck` carrying
version 2 with success true fails the spawn (version mismatch) and leaves
the flag false. -/
theorem C6_version2_example :
    perform_handshake (.ok (.handshakeAck 2 true)) =
      (.error .versionMismatch, false) := rfl

/-! ## Claim C1 — the supervisor's session table
(`IconDaemon::handle_fs_event`) -/

/-- The `notify::EventKind` groups `IconDaemon::handle_fs_event` matches on
(`src/cvh-icons/src/daemon/mod.rs` lines 193–220); every other kind falls
into `other` and is ignored. -/
inductive EventKind
  | create
  | remove
  | modify
  | other
deriving DecidableEq, Repr

/-- A filesystem event: its kind and its list of paths. A path is embedded
as its list of components; the final component is what `file_name()`
returns. -/
structure FsEvent where
  kind : EventKind
  paths : List (List String)
deriving DecidableEq, Repr

/-- `Path::file_name().map(|n| n.starts_with('.')).unwrap_or(false)` — the
hidden-path test of `IconDaemon::scan_desktop`. -/
def is_hidden (p : List String) : Bool :=
  match p.getLast? with
  | some n =>
    match n.data with
    | c :: _ => c == '.'
    | [] => false
  | none => false

/-- `IconDaemon::add_icon` (daemon/mod.rs lines 100–133) restricted to the
session table: if a session for the path exists do nothing, otherwise
insert one. No hidden-path check happens here. -/
def add_icon (t : List (List String)) (p : List String) : List (List String) :=
  if p ∈ t then t else t ++ [p]

/-- `IconDaemon::remove_icon` (daemon/mod.rs lines 184–190) restricted to
the session table: remove the key if present (`HashMap::remove`). -/
def remove_icon (t : List (List String)) (p : List String) : List (List String) :=
  t.filter (fun q => q != p)

/-- `IconDaemon::handle_fs_event` (daemon/mod.rs lines 193–220): `Create`
adds every path; `Remove` removes every path; `Modify` destroys and
re-creates the session of every path that has one; anything else is
ignored. -/
def handle_fs_event (t : List (List String)) (e : FsEvent) : List (List String) :=
  match e.kind with
  | .create => e.paths.foldl add_icon t
  | .remove => e.paths.foldl remove_icon t
  | .modify =>
    e.paths.foldl (fun t p => if p ∈ t then add_icon (remove_icon t p) p else t) t
  | .other => t

/-- Processing a whole event sequence from the empty session table. -/
def process_events (events : List FsEvent) : List (List String) :=
  events.foldl handle_fs_event []

/-- The kind of the last event whose path list mentions `p` (claim C1's
"last event mentioning p"). -/
def last_event_kind : List FsEvent → List String → Option EventKind
  | [], _ => none
  | e :: rest, p =>
    match last_event_kind rest p with
    | some k => some k
    | none => if p ∈ e.paths then some e.kind else none

/-- Claim C1 exactly as stated, at one event sequence and one path: the
table contains a session for `p` iff the last event mentioning `p` was a
`Create` or a `Modify` and `p`'s final component does not begin with a
dot. -/
def C1_claim (events : List FsEvent) (p : List String) : Prop :=
  p ∈ process_events events ↔
    ((last_event_kind events p = some .create ∨
      last_event_kind events p = some .modify) ∧ is_hidden p = false)

/-- The kind (`create` or `remove`) of the last `Create`-or-`Remove` event
whose path list mentions `p`; `Modify` events are transparent. -/
def last_cr_kind : List FsEvent → List String → Option EventKind
  | [], _ => none
  | e :: rest, p =>
    match last_cr_kind rest p with
    | some k => some k
    | none =>
      if (e.kind = .create ∨ e.kind = .remove) ∧ p ∈ e.paths then some e.kind
      else none

lemma mem_add_icon {t : List (List String)} {p q : List String} :
    p ∈ add_icon t q ↔ p ∈ t ∨ p = q := by
  rw [add_icon]
  split
  · constructor
    · exact Or.inl
    · rintro (h | rfl)
      · exact h
      · assumption
  · simp

lemma mem_remove_icon {t : List (List String)} {p q : List String} :
    p ∈ remove_icon t q ↔ p ∈ t ∧ p ≠ q := by
  simp [remove_icon]

lemma mem_foldl_add {paths : List (List String)} {t : List (List String)}
    {p : List String} :
    p ∈ paths.foldl add_icon t ↔ p ∈ t ∨ p ∈ paths := by
  induction paths generalizing t with
  | nil => simp
  | cons q rest ih =>
    rw [List.foldl_cons, ih, mem_add_icon]
    simp [or_assoc]

lemma mem_foldl_remove {paths : List (List String)} {t : List (List String)}
    {p : List String} :
    p ∈ paths.foldl remove_icon t ↔ p ∈ t ∧ p ∉ paths := by
  induction paths generalizing t with
  | nil => simp
  | cons q rest ih =>
    rw [List.foldl_cons, ih, mem_remove_icon]
    simp only [List.mem_cons]
    constructor
    · rintro ⟨⟨h1, h2⟩, h3⟩
      exact ⟨h1, by simp [h2, h3]⟩
    · rintro ⟨h1, h2⟩
      push_neg at h2
      exact ⟨⟨h1, h2.1⟩, h2.2⟩

lemma mem_foldl_modify {paths : List (List String)} {t : List (List String)}
    {p : List String} :
    p ∈ paths.foldl
      (fun t p => if p ∈ t then add_icon (remove_icon t p) p else t) t ↔ p ∈ t := by
  induction paths generalizing t with
  | nil => simp
  | cons q rest ih =>
    rw [List.foldl_cons, ih]
    split
    · rw [mem_add_icon, mem_remove_icon]
      constructor
      · rintro (⟨h1, _⟩ | rfl)
        · exact h1
        · assumption
      · intro h
        by_cases hpq : p = q
        · exact Or.inr hpq
        · exact Or.inl ⟨h, hpq⟩
    · exact Iff.rfl

lemma mem_handle_fs_event {t : List (List String)} {e : FsEvent}
    {p : List String} :
    p ∈ handle_fs_event t e ↔
      (if e.kind = .create ∧ p ∈ e.paths then True
       else if e.kind = .remove ∧ p ∈ e.paths then False
       else p ∈ t) := by
  rw [handle_fs_event]
  rcases e with ⟨k, paths⟩
  cases k <;> simp only
  · rw [mem_foldl_add]
    by_cases h : p ∈ paths <;> simp [h]
  · rw [mem_foldl_remove]
    by_cases h : p ∈ paths <;> simp [h]
  · rw [mem_foldl_modify]
    simp
  · simp

lemma mem_foldl_handle (events : List FsEvent) (p : List String)
    (t : List (List String)) :
    p ∈ events.foldl handle_fs_event t ↔
      (last_cr_kind events p = some .create ∨
        (last_cr_kind events p = none ∧ p ∈ t)) := by
  induction events generalizing t with
  | nil => simp [last_cr_kind]
  | cons e rest ih =>
    rw [List.foldl_cons, ih, last_cr_kind]
    rcases hrest : last_cr_kind rest p with _ | k
    · simp only
      rw [mem_handle_fs_event]
      rcases e with ⟨k, paths⟩
      by_cases hm : p ∈ paths
      · cases k <;> simp [hm]
      · cases k <;> simp [hm]
    · simp

/-- C1 (counterexample): the single event `Create(.bashrc)` produces a
session for the hidden path — `handle_fs_event` has no hidden-path check
(only the initial `scan_desktop` filters dotfiles) — so the claim's "no
session ever exists for a hidden path" half of the iff is false. -/
theorem C1_counterexample :
    ¬ C1_claim [⟨.create, [["home", "user", "Desktop", ".bashrc"]]⟩]
      ["home", "user", "Desktop", ".bashrc"] := by
  rw [C1_claim]
  decide

/-- C1 (amended): starting from the empty session table, after a sequence
of events is processed the table contains a session for `p` iff the last
`Create`-or-`Remove` event mentioning `p` is a `Create`. `Modify` events
never change whether a session exists (a `Modify` for a path with a session
destroys and re-creates it; for a path without one it does nothing), and
the event handler does not filter hidden paths — the leading-dot filter
applies only to the initial directory scan. -/
theorem C1_session_table (events : List FsEvent) (p : List String) :
    p ∈ process_events events ↔ last_cr_kind events p = some .create := by
  rw [process_events, mem_foldl_handle]
  simp

/-! ## Claim C2 — render fallback logic (`DesktopIcon::request_render`) -/

/-- The fields of `DesktopIcon` (`src/cvh-icons/src/icons/mod.rs`) that
`request_render` and `request_position` read or write: the icon type, the
configured icon size (`u32`), the cached draw commands of the last
successful render, and the stored grid coordinates (`u32`). -/
structure IconState where
  icon_type : IconType
  size : Nat
  cached_draw_commands : List DrawCommand
  grid_x : Nat
  grid_y : Nat
deriving DecidableEq, Repr

/-- The per-type fallback palette of `DesktopIcon::fallback_render`. -/
def fallback_color (t : IconType) : String :=
  match t with
  | .folder => "#4A90D9"
  | .executable => "#73D216"
  | .image => "#F57900"
  | .document => "#EDD400"
  | .archive => "#75507B"
  | .video => "#C17D11"
  | .audio => "#CC0000"
  | _ => "#888888"

/-- Wrapping `u32` subtraction (release semantics), for `self.size - 8`. -/
def sub32u (a b : Nat) : Nat := (a + 4294967296 - b) % 4294967296

/-- The `u32 → f32` cast; exact as a rational for the icon sizes involved
(below `2^24`). -/
def floatOfU32 (n : Nat) : FloatVal := .finite n

/-- `DesktopIcon::fallback_render` (icons/mod.rs lines 542–567): a
transparent clear, then a filled rectangle at (4,4) of side `size − 8` in
the per-type palette color. -/
def fallback_render (st : IconState) : List DrawCommand :=
  [.clear "#00000000",
   .fillRect (.finite 4) (.finite 4) (floatOfU32 (sub32u st.size 8))
     (floatOfU32 (sub32u st.size 8)) (fallback_color st.icon_type)]

/-- What the IPC layer did for one `request_render` call, as
`request_render` observes it: there is no Lua process at all; the process
was found dead and the single restart attempt failed; sending the request
failed; receiving the reply failed (timeout, framing, decode); or the child
replied with `r`. -/
inductive RenderIpc
  | noProcess
  | deadRestartFailed
  | sendFailed
  | recvFailed
  | reply (r : Response)
deriving DecidableEq, Repr

/-- The error fall-through at the bottom of `request_render` (icons/mod.rs
lines 444–450): the cached commands when the cache is nonempty, otherwise
the built-in fallback. -/
def cached_or_fallback (st : IconState) : List DrawCommand :=
  if st.cached_draw_commands.isEmpty then fallback_render st
  else st.cached_draw_commands

/-- `DesktopIcon::request_render` (icons/mod.rs lines 375–450) as a
function of the state and of the IPC outcome. Note the `deadRestartFailed`
arm (source lines 387–393): it returns the cached command list directly —
even when that cache is empty — without the emptiness check the other
failure arms perform. -/
def request_render (st : IconState) (ipc : RenderIpc) :
    List DrawCommand × IconState :=
  match ipc with
  | .noProcess => (fallback_render st, st)
  | .deadRestartFailed => (st.cached_draw_commands, st)
  | .sendFailed => (cached_or_fallback st, st)
  | .recvFailed => (cached_or_fallback st, st)
  | .reply (.render commands) =>
    (commands, { st with cached_draw_commands := commands })
  | .reply _ => (cached_or_fallback st, st)

/-- C2 (code bug): an icon of type `Image`, size 64, whose child has died,
whose restart attempt failed, and whose render cache is empty. The code
returns the empty command list, while the claim (and the function's own
documentation, "returns cached commands or fallback") requires the
two-command built-in fallback `[Clear{#00000000},
FillRect{4,4,56,56,#F57900}]`; the icon renders nothing. -/
theorem C2_dead_restart_empty_cache :
    request_render ⟨.image, 64, [], 0, 0⟩ .deadRestartFailed =
      ([], ⟨.image, 64, [], 0, 0⟩) ∧
    fallback_render ⟨.image, 64, [], 0, 0⟩ =
      [.clear "#00000000",
       .fillRect (.finite 4) (.finite 4) (.finite 56) (.finite 56) "#F57900"] ∧
    ([] : List DrawCommand) ≠ fallback_render ⟨.image, 64, [], 0, 0⟩ := by
  refine ⟨rfl, ?_, ?_⟩ <;> decide

/-- C2 (context): on every failure path other than the dead-child /
failed-restart one, `request_render` does behave as the claim says: cached
commands if any, else the built-in two-command fallback — and a successful
render is returned and cached. -/
theorem C2_other_paths (st : IconState) (ipc : RenderIpc) :
    (ipc ≠ .deadRestartFailed →
      (∀ r, ipc ≠ .reply r) →
      request_render st ipc =
        (if st.cached_draw_commands.isEmpty ∧ ipc ≠ .noProcess ∨ ipc = .noProcess
         then fallback_render st else st.cached_draw_commands, st)) ∧
    (∀ commands, ipc = .reply (.render commands) →
      request_render st ipc =
        (commands, { st with cached_draw_commands := commands })) := by
  constructor
  · intro h1 h2
    rcases ipc with _ | _ | _ | _ | r
    · simp [request_render]
    · exact absurd rfl h1
    · by_cases hc : st.cached_draw_commands.isEmpty <;>
        simp [request_render, cached_or_fallback, hc]
    · by_cases hc : st.cached_draw_commands.isEmpty <;>
        simp [request_render, cached_or_fallback, hc]
    · exact absurd rfl (h2 r)
  · rintro commands rfl
    rfl

/-! ## Claim C10 — grid-coordinate storage (`DesktopIcon::request_position`) -/

/-- What the IPC layer did for one `request_position` call: no process (or
dead with failed restart, the source treats both through the same early
return); a send failure; a receive failure; or a child reply `r`. -/
inductive PositionIpc
  | noProcessOrDead
  | sendFailed
  | recvFailed
  | reply (r : Response)
deriving DecidableEq, Repr

/-- `DesktopIcon::request_position` (icons/mod.rs lines 464–517) as a
function of the state and the IPC outcome (screen height and icon count
only feed the `PositionInput` payload, which the oracle absorbs). On a
successful `Position`
response the source stores `position.x as u32` / `position.y as u32` into
the grid coordinates and returns the position unchanged; every failure
falls back to `default_position` (whose possible division-by-zero panic is
the `Option`). -/
def request_position (st : IconState)
    (screen_width _screen_height _icon_count icon_index : Nat)
    (cell_width cell_height : Option Nat) (ipc : PositionIpc) :
    Option Position × IconState :=
  match ipc with
  | .reply (.position position) =>
    (some position,
     { st with grid_x := toU32ofI32 position.x, grid_y := toU32ofI32 position.y })
  | .noProcessOrDead =>
    (default_position screen_width icon_index cell_width cell_height, st)
  | .sendFailed =>
    (default_position screen_width icon_index cell_width cell_height, st)
  | .recvFailed =>
    (default_position screen_width icon_index cell_width cell_height, st)
  | .reply _ =>
    (default_position screen_width icon_index cell_width cell_height, st)

/-- C10 (confirmed): a successful `Position` reply is returned to the
caller with its signed values intact, while the session's unsigned grid
coordinates receive the plain `as u32` casts; in particular a negative
reply coordinate `-n` is stored as `2^32 − n`. -/
theorem C10_request_position_cast (st : IconState)
    (sw sh cnt idx : Nat) (cwo cho : Option Nat) (p : Position) (n : Nat)
    (hx : p.x = -(n : Int)) (hn : 0 < n) (hn31 : n ≤ 2147483648) :
    (request_position st sw sh cnt idx cwo cho (.reply (.position p))).1 = some p ∧
    (request_position st sw sh cnt idx cwo cho
      (.reply (.position p))).2.grid_x = 4294967296 - n ∧
    (request_position st sw sh cnt idx cwo cho
      (.reply (.position p))).2.grid_y = toU32ofI32 p.y := by
  refine ⟨rfl, ?_, rfl⟩
  show toU32ofI32 p.x = 4294967296 - n
  rw [hx, toU32ofI32]
  omega

/-- C10 witness: a child reply of `Position{x: -5, y: 7}` is returned as-is
and stored as grid coordinates `(2^32 − 5, 7)`. -/
theorem C10_witness :
    ((⟨-5, 7⟩ : Position).x = -((5 : Nat) : Int) ∧ 0 < 5 ∧ 5 ≤ 2147483648) ∧
    (request_position ⟨.file, 64, [], 0, 0⟩ 1920 1080 25 0 none none
      (.reply (.position ⟨-5, 7⟩))).1 = some ⟨-5, 7⟩ ∧
    (request_position ⟨.file, 64, [], 0, 0⟩ 1920 1080 25 0 none none
      (.reply (.position ⟨-5, 7⟩))).2.grid_x = 4294967296 - 5 ∧
    (request_position ⟨.file, 64, [], 0, 0⟩ 1920 1080 25 0 none none
      (.reply (.position ⟨-5, 7⟩))).2.grid_y = toU32ofI32 (7 : Int) :=
  ⟨⟨by decide, by decide, by decide⟩,
   C10_request_position_cast ⟨.file, 64, [], 0, 0⟩ 1920 1080 25 0 none none
     ⟨-5, 7⟩ 5 (by decide) (by decide) (by decide)⟩

/-! ## Claim C3 — sandbox launch-description ordering
(`LuaProcess::build_bwrap_command`, `BubblewrapSandbox::build_command`) -/

/-- `SandboxOptions` from `src/cvh-icons/src/sandbox/mod.rs` (paths as the
strings their `to_string_lossy()` yields). -/
structure SandboxOptions where
  allow_network : Bool
  read_only_paths : List String
  read_write_paths : List String
  env_vars : List (String × String)
  work_dir : Option String

/-- The host-filesystem facts the launch builders query: the
`/lib`/`/lib64` symlink and existence tests, per-path existence, and
`Path::parent()` (supplied as an oracle; only existence/ordering of the
emitted options matters to the claims). -/
structure HostFs where
  lib_is_symlink : Bool
  lib_exists : Bool
  lib64_is_symlink : Bool
  lib64_exists : Bool
  path_exists : String → Bool
  parent_of : String → Option String

/-- The argument prefix shared verbatim by both builders: lifetime and
session isolation, namespace unsharing, the minimal read-only filesystem
view, and the configured extra binds. -/
def sandbox_common_args (fs : HostFs) (options : SandboxOptions) : List String :=
  ["--die-with-parent", "--new-session"] ++
  (if options.allow_network then
    ["--unshare-user", "--unshare-pid", "--unshare-uts", "--unshare-cgroup"]
   else ["--unshare-all"]) ++
  ["--ro-bind", "/usr", "/usr"] ++
  (if fs.lib_is_symlink then ["--symlink", "usr/lib", "/lib"]
   else if fs.lib_exists then ["--ro-bind", "/lib", "/lib"] else []) ++
  (if fs.lib64_is_symlink then ["--symlink", "usr/lib64", "/lib64"]
   else if fs.lib64_exists then ["--ro-bind", "/lib64", "/lib64"] else []) ++
  ["--symlink", "usr/bin", "/bin", "--symlink", "usr/sbin", "/sbin",
   "--proc", "/proc", "--dev", "/dev",
   "--tmpfs", "/tmp", "--tmpfs", "/run", "--tmpfs", "/home"] ++
  options.read_only_paths.foldr
    (fun p acc => (if fs.path_exists p then ["--ro-bind", p, p] else []) ++ acc) [] ++
  options.read_write_paths.foldr
    (fun p acc => (if fs.path_exists p then ["--bind", p, p] else []) ++ acc) []

/-- `LuaProcess::build_bwrap_command` from `src/cvh-icons/src/lua/process.rs`
lines 100–217: after the common prefix, the script-directory binds, the
optional `--chdir`, then `--clearenv` FIRST, the essential environment, the
`CVH_ICON_SCRIPT` variable, the caller environment LAST, and the `--`
separator with the interpreter and handler script. -/
def build_bwrap_command (fs : HostFs) (options : SandboxOptions)
    (handler_path icon_script_path : String) : List String :=
  sandbox_common_args fs options ++
  (match fs.parent_of handler_path with
   | some parent => if fs.path_exists parent then ["--ro-bind", parent, parent] else []
   | none => []) ++
  (match fs.parent_of icon_script_path with
   | some icon_parent =>
     let needs_separate_bind :=
       match fs.parent_of handler_path with
       | some hp => hp != icon_parent
       | none => true
     if needs_separate_bind && fs.path_exists icon_parent then
       ["--ro-bind", icon_parent, icon_parent]
     else []
   | none => []) ++
  (match options.work_dir with
   | some wd => ["--chdir", wd]
   | none => []) ++
  ["--clearenv"] ++
  ["--setenv", "PATH", "/usr/bin:/bin", "--setenv", "HOME", "/tmp",
   "--setenv", "LANG", "C.UTF-8"] ++
  ["--setenv", "CVH_ICON_SCRIPT", icon_script_path] ++
  options.env_vars.foldr (fun kv acc => ["--setenv", kv.1, kv.2] ++ acc) [] ++
  ["--", "lua", handler_path]

namespace BubblewrapSandbox

/-- `BubblewrapSandbox::build_command` from
`src/cvh-icons/src/sandbox/bubblewrap.rs` lines 25–114: after the common
prefix and the optional `--chdir`, it emits the caller environment
variables FIRST, then `--clearenv`, then the essential environment, then
the `--` separator with the program and its arguments. -/
def build_command (fs : HostFs) (options : SandboxOptions)
    (program : String) (args : List String) : List String :=
  sandbox_common_args fs options ++
  (match options.work_dir with
   | some wd => ["--chdir", wd]
   | none => []) ++
  options.env_vars.foldr (fun kv acc => ["--setenv", kv.1, kv.2] ++ acc) [] ++
  ["--clearenv"] ++
  ["--setenv", "PATH", "/usr/bin:/bin", "--setenv", "HOME", "/tmp",
   "--setenv", "LANG", "C.UTF-8"] ++
  ["--", program] ++ args

end BubblewrapSandbox

/-- C3 (code bug): with a single caller environment variable
`CUSTOM_VAR=custom_value` (and otherwise empty options, on a host where the
optional paths do not exist), `BubblewrapSandbox::build_command` emits the
caller's `--setenv` at index 11, before `--clearenv` at index 14 and before
the essential `--setenv PATH` — the opposite of the ordering contract, so
bubblewrap wipes the caller environment and essentials cannot be
overridden. (`LuaProcess::build_bwrap_command` honours the contract at the
same inputs: see the context theorem below.) -/
theorem C3_bubblewrap_env_order :
    (BubblewrapSandbox.build_command
        ⟨false, false, false, false, fun _ => false, fun _ => none⟩
        ⟨false, [], [], [("CUSTOM_VAR", "custom_value")], none⟩
        "echo" ["hello"]).indexOf "--setenv" <
      (BubblewrapSandbox.build_command
        ⟨false, false, false, false, fun _ => false, fun _ => none⟩
        ⟨false, [], [], [("CUSTOM_VAR", "custom_value")], none⟩
        "echo" ["hello"]).indexOf "--clearenv" ∧
    (BubblewrapSandbox.build_command
        ⟨false, false, false, false, fun _ => false, fun _ => none⟩
        ⟨false, [], [], [("CUSTOM_VAR", "custom_value")], none⟩
        "echo" ["hello"]).indexOf "CUSTOM_VAR" <
      (BubblewrapSandbox.build_command
        ⟨false, false, false, false, fun _ => false, fun _ => none⟩
        ⟨false, [], [], [("CUSTOM_VAR", "custom_value")], none⟩
        "echo" ["hello"]).indexOf "PATH" := by decide

/-- C3 (context): at the same inputs, `LuaProcess::build_bwrap_command`
does satisfy the contract: `--clearenv` precedes the first `--setenv`, and
the essential `PATH` setenv precedes the caller-supplied one. -/
theorem C3_process_builder_order :
    (build_bwrap_command
        ⟨false, false, false, false, fun _ => false, fun _ => none⟩
        ⟨false, [], [], [("CUSTOM_VAR", "custom_value")], none⟩
        "/tmp/ipc_handler.lua" "/tmp/widgets/file.lua").indexOf "--clearenv" <
      (build_bwrap_command
        ⟨false, false, false, false, fun _ => false, fun _ => none⟩
        ⟨false, [], [], [("CUSTOM_VAR", "custom_value")], none⟩
        "/tmp/ipc_handler.lua" "/tmp/widgets/file.lua").indexOf "--setenv" ∧
    (build_bwrap_command
        ⟨false, false, false, false, fun _ => false, fun _ => none⟩
        ⟨false, [], [], [("CUSTOM_VAR", "custom_value")], none⟩
        "/tmp/ipc_handler.lua" "/tmp/widgets/file.lua").indexOf "PATH" <
      (build_bwrap_command
        ⟨false, false, false, false, fun _ => false, fun _ => none⟩
        ⟨false, [], [], [("CUSTOM_VAR", "custom_value")], none⟩
        "/tmp/ipc_handler.lua" "/tmp/widgets/file.lua").indexOf "CUSTOM_VAR" := by decide

/-! ## Claim C7 — the tagged JSON codec (`Request::serialize`,
`Response::deserialize`, protocol.rs lines 210–261, with the serde-derived
impls of the payload types) -/

/-- A serde_json number: a nonnegative integer (the `u64` arm), a negative
integer (the `i64` arm, used only for negative values), or a finite double
(identified with its exact rational value, see `FloatVal`). -/
inductive JNum
  | uint (n : Nat)
  | nint (z : Int)
  | float (q : ℚ)
deriving DecidableEq

/-- The JSON value tree `serde_json::to_vec`/`from_slice` work through
(textual rendering and re-parsing is injective on this tree, so the
round-trip claims live here). -/
inductive Json
  | null
  | bool (b : Bool)
  | num (n : JNum)
  | str (s : String)
  | arr (xs : List Json)
  | obj (fields : List (String × Json))

/-! ### Field-level encoders, following the derived `Serialize` impls -/

/-- `u32`/`u64` fields serialize as nonnegative integers. -/
def encU (n : Nat) : Json := .num (.uint n)

/-- `i32` fields: serde_json stores nonnegative values in the `u64` arm and
negative ones in the `i64` arm. -/
def encI32 (z : Int) : Json :=
  if 0 ≤ z then .num (.uint z.toNat) else .num (.nint z)

/-- `f32`/`f64` fields: a finite float is emitted as a number; serde_json
writes `null` for NaN and ±∞. -/
def encFloat (f : FloatVal) : Json :=
  match f with
  | .finite q => .num (.float q)
  | _ => .null

/-- `Option<T>`: `None` is `null`, `Some` is the bare payload. -/
def encOpt (e : α → Json) : Option α → Json
  | none => .null
  | some a => e a

/-- `IconType` (externally tagged serde default): unit variants are their
name as a string; the `Custom` newtype variant is a one-field object. -/
def encIconTypeIpc : IconTypeIpc → Json
  | .file => .str "File"
  | .directory => .str "Directory"
  | .application => .str "Application"
  | .symlink => .str "Symlink"
  | .custom s => .obj [("Custom", .str s)]

/-- `IconMetadata`: a plain object, fields in declaration order. -/
def encIconMetadata (m : IconMetadata) : Json :=
  .obj [("path", .str m.path), ("name", .str m.name),
        ("mime_type", encOpt Json.str m.mime_type),
        ("is_directory", .bool m.is_directory),
        ("size", encOpt encU m.size),
        ("width", encU m.width), ("height", encU m.height),
        ("icon_type", encIconTypeIpc m.icon_type),
        ("selected", .bool m.selected), ("hovered", .bool m.hovered)]

/-- `IconEvent` (externally tagged). -/
def encIconEvent : IconEvent → Json
  | .click button x y =>
    .obj [("Click", .obj [("button", encU button), ("x", encFloat x),
                          ("y", encFloat y)])]
  | .hoverEnter => .str "HoverEnter"
  | .hoverExit => .str "HoverExit"
  | .drop paths => .obj [("Drop", .obj [("paths", .arr (paths.map Json.str))])]
  | .selected => .str "Selected"
  | .deselected => .str "Deselected"

/-- `RenderContext`. -/
def encRenderContext (c : RenderContext) : Json :=
  .obj [("canvas_width", encU c.canvas_width),
        ("canvas_height", encU c.canvas_height),
        ("device_pixel_ratio", encFloat c.device_pixel_ratio)]

/-- `PositionInput`. -/
def encPositionInput (i : PositionInput) : Json :=
  .obj [("screen_width", encU i.screen_width),
        ("screen_height", encU i.screen_height),
        ("icon_count", encU i.icon_count), ("icon_index", encU i.icon_index),
        ("cell_width", encOpt encU i.cell_width),
        ("cell_height", encOpt encU i.cell_height)]

/-- `Position`. -/
def encPosition (p : Position) : Json :=
  .obj [("x", encI32 p.x), ("y", encI32 p.y)]

/-- `EventAction`. -/
def encEventAction (a : EventAction) : Json :=
  .obj [("action", .str a.action), ("payload", encOpt Json.str a.payload)]

/-- `DrawCommand` (externally tagged; the derive the `Response::Render`
payload requires). -/
def encDrawCommand : DrawCommand → Json
  | .fillRect x y w h color =>
    .obj [("FillRect", .obj [("x", encFloat x), ("y", encFloat y),
      ("w", encFloat w), ("h", encFloat h), ("color", .str color)])]
  | .strokeRect x y w h color width =>
    .obj [("StrokeRect", .obj [("x", encFloat x), ("y", encFloat y),
      ("w", encFloat w), ("h", encFloat h), ("color", .str color),
      ("width", encFloat width)])]
  | .fillCircle cx cy r color =>
    .obj [("FillCircle", .obj [("cx", encFloat cx), ("cy", encFloat cy),
      ("r", encFloat r), ("color", .str color)])]
  | .strokeCircle cx cy r color width =>
    .obj [("StrokeCircle", .obj [("cx", encFloat cx), ("cy", encFloat cy),
      ("r", encFloat r), ("color", .str color), ("width", encFloat width)])]
  | .line x1 y1 x2 y2 color width =>
    .obj [("Line", .obj [("x1", encFloat x1), ("y1", encFloat y1),
      ("x2", encFloat x2), ("y2", encFloat y2), ("color", .str color),
      ("width", encFloat width)])]
  | .text text x y size color align =>
    .obj [("Text", .obj [("text", .str text), ("x", encFloat x),
      ("y", encFloat y), ("size", encFloat size), ("color", .str color),
      ("align", .str align)])]
  | .image path x y w h =>
    .obj [("Image", .obj [("path", .str path), ("x", encFloat x),
      ("y", encFloat y), ("w", encFloat w), ("h", encFloat h)])]
  | .clear color => .obj [("Clear", .obj [("color", .str color)])]

/-- `Request::serialize` with `IpcEncoding::Json`
(`src/cvh-icons/src/ipc/protocol.rs` lines 210–234): internally tagged with
a string field `type` equal to the variant name, remaining fields at the
same level. -/
def encRequest : Request → Json
  | .handshake version =>
    .obj [("type", .str "Handshake"), ("version", encU version)]
  | .render metadata context =>
    .obj [("type", .str "Render"), ("metadata", encIconMetadata metadata),
          ("context", encRenderContext context)]
  | .event event => .obj [("type", .str "Event"), ("event", encIconEvent event)]
  | .position input =>
    .obj [("type", .str "Position"), ("input", encPositionInput input)]
  | .shutdown => .obj [("type", .str "Shutdown")]

/-- `Response::serialize` with `IpcEncoding::Json` (internally tagged). -/
def encResponse : Response → Json
  | .handshakeAck version success =>
    .obj [("type", .str "HandshakeAck"), ("version", encU version),
          ("success", .bool success)]
  | .render commands =>
    .obj [("type", .str "Render"), ("commands", .arr (commands.map encDrawCommand))]
  | .event handled action =>
    .obj [("type", .str "Event"), ("handled", .bool handled),
          ("action", encOpt encEventAction action)]
  | .position position =>
    .obj [("type", .str "Position"), ("position", encPosition position)]
  | .error message => .obj [("type", .str "Error"), ("message", .str message)]
  | .shutdownAck => .obj [("type", .str "ShutdownAck")]

/-! ### Field-level decoders, following the derived `Deserialize` impls.
Each accepts exactly what the corresponding encoder can produce (the real
deserializers also accept some coercions — e.g. an integer token at a float
field — that the encoders never emit and that therefore cannot occur in a
round trip). -/

/-- `u32`: a nonnegative integer within range; `null`, strings, floats and
negative numbers are rejected. -/
def decU32 : Json → Option Nat
  | .num (.uint n) => if n < 4294967296 then some n else none
  | _ => none

/-- `u64`. -/
def decU64 : Json → Option Nat
  | .num (.uint n) => if n < 18446744073709551616 then some n else none
  | _ => none

/-- `i32`. -/
def decI32 : Json → Option Int
  | .num (.uint n) => if n < 2147483648 then some (n : Int) else none
  | .num (.nint z) => if -2147483648 ≤ z ∧ z < 0 then some z else none
  | _ => none

/-- `f32`/`f64`: a number token; in particular the `null` that a non-finite
float serializes to is rejected, which is what breaks the round trip. -/
def decFloat : Json → Option FloatVal
  | .num (.float q) => some (.finite q)
  | _ => none

def decBool : Json → Option Bool
  | .bool b => some b
  | _ => none

def decString : Json → Option String
  | .str s => some s
  | _ => none

def decOpt (d : Json → Option α) : Json → Option (Option α)
  | .null => some none
  | j => (d j).map some

/-- Sequence decoding, element by element (how a serde sequence visitor
proceeds); any element failure fails the whole list. -/
def decListAux (d : Json → Option α) : List Json → Option (List α)
  | [] => some []
  | j :: js => do
    let a ← d j
    let as ← decListAux d js
    some (a :: as)

def decList (d : Json → Option α) : Json → Option (List α)
  | .arr xs => decListAux d xs
  | _ => none

def decIconTypeIpc : Json → Option IconTypeIpc
  | .str s =>
    if s = "File" then some .file
    else if s = "Directory" then some .directory
    else if s = "Application" then some .application
    else if s = "Symlink" then some .symlink
    else none
  | .obj [(k, v)] =>
    if k = "Custom" then (decString v).map IconTypeIpc.custom else none
  | _ => none

def decIconMetadata : Json → Option IconMetadata
  | .obj fs => do
    let path ← fs.lookup "path" >>= decString
    let name ← fs.lookup "name" >>= decString
    let mime_type ← fs.lookup "mime_type" >>= decOpt decString
    let is_directory ← fs.lookup "is_directory" >>= decBool
    let size ← fs.lookup "size" >>= decOpt decU64
    let width ← fs.lookup "width" >>= decU32
    let height ← fs.lookup "height" >>= decU32
    let icon_type ← fs.lookup "icon_type" >>= decIconTypeIpc
    let selected ← fs.lookup "selected" >>= decBool
    let hovered ← fs.lookup "hovered" >>= decBool
    some ⟨path, name, mime_type, is_directory, size, width, height,
          icon_type, selected, hovered⟩
  | _ => none

def decIconEvent : Json → Option IconEvent
  | .str s =>
    if s = "HoverEnter" then some .hoverEnter
    else if s = "HoverExit" then some .hoverExit
    else if s = "Selected" then some .selected
    else if s = "Deselected" then some .deselected
    else none
  | .obj [(k, v)] =>
    if k = "Click" then
      match v with
      | .obj fs => do
        let button ← fs.lookup "button" >>= decU32
        let x ← fs.lookup "x" >>= decFloat
        let y ← fs.lookup "y" >>= decFloat
        some (.click button x y)
      | _ => none
    else if k = "Drop" then
      match v with
      | .obj fs => do
        let paths ← fs.lookup "paths" >>= decList decString
        some (.drop paths)
      | _ => none
    else none
  | _ => none

def decRenderContext : Json → Option RenderContext
  | .obj fs => do
    let canvas_width ← fs.lookup "canvas_width" >>= decU32
    let canvas_height ← fs.lookup "canvas_height" >>= decU32
    let device_pixel_ratio ← fs.lookup "device_pixel_ratio" >>= decFloat
    some ⟨canvas_width, canvas_height, device_pixel_ratio⟩
  | _ => none

def decPositionInput : Json → Option PositionInput
  | .obj fs => do
    let screen_width ← fs.lookup "screen_width" >>= decU32
    let screen_height ← fs.lookup "screen_height" >>= decU32
    let icon_count ← fs.lookup "icon_count" >>= decU32
    let icon_index ← fs.lookup "icon_index" >>= decU32
    let cell_width ← fs.lookup "cell_width" >>= decOpt decU32
    let cell_height ← fs.lookup "cell_height" >>= decOpt decU32
    some ⟨screen_width, screen_height, icon_count, icon_index,
          cell_width, cell_height⟩
  | _ => none

def decPosition : Json → Option Position
  | .obj fs => do
    let x ← fs.lookup "x" >>= decI32
    let y ← fs.lookup "y" >>= decI32
    some ⟨x, y⟩
  | _ => none

def decEventAction : Json → Option EventAction
  | .obj fs => do
    let action ← fs.lookup "action" >>= decString
    let payload ← fs.lookup "payload" >>= decOpt decString
    some ⟨action, payload⟩
  | _ => none

def decDrawCommand : Json → Option DrawCommand
  | .obj [(k, v)] =>
    match v with
    | .obj fs =>
      if k = "FillRect" then do
        let x ← fs.lookup "x" >>= decFloat
        let y ← fs.lookup "y" >>= decFloat
        let w ← fs.lookup "w" >>= decFloat
        let h ← fs.lookup "h" >>= decFloat
        let color ← fs.lookup "color" >>= decString
        some (.fillRect x y w h color)
      else if k = "StrokeRect" then do
        let x ← fs.lookup "x" >>= decFloat
        let y ← fs.lookup "y" >>= decFloat
        let w ← fs.lookup "w" >>= decFloat
        let h ← fs.lookup "h" >>= decFloat
        let color ← fs.lookup "color" >>= decString
        let width ← fs.lookup "width" >>= decFloat
        some (.strokeRect x y w h color width)
      else if k = "FillCircle" then do
        let cx ← fs.lookup "cx" >>= decFloat
        let cy ← fs.lookup "cy" >>= decFloat
        let r ← fs.lookup "r" >>= decFloat
        let color ← fs.lookup "color" >>= decString
        some (.fillCircle cx cy r color)
      else if k = "StrokeCircle" then do
        let cx ← fs.lookup "cx" >>= decFloat
        let cy ← fs.lookup "cy" >>= decFloat
        let r ← fs.lookup "r" >>= decFloat
        let color ← fs.lookup "color" >>= decString
        let width ← fs.lookup "width" >>= decFloat
        some (.strokeCircle cx cy r color width)
      else if k = "Line" then do
        let x1 ← fs.lookup "x1" >>= decFloat
        let y1 ← fs.lookup "y1" >>= decFloat
        let x2 ← fs.lookup "x2" >>= decFloat
        let y2 ← fs.lookup "y2" >>= decFloat
        let color ← fs.lookup "color" >>= decString
        let width ← fs.lookup "width" >>= decFloat
        some (.line x1 y1 x2 y2 color width)
      else if k = "Text" then do
        let text ← fs.lookup "text" >>= decString
        let x ← fs.lookup "x" >>= decFloat
        let y ← fs.lookup "y" >>= decFloat
        let size ← fs.lookup "size" >>= decFloat
        let color ← fs.lookup "color" >>= decString
        let align ← fs.lookup "align" >>= decString
        some (.text text x y size color align)
      else if k = "Image" then do
        let path ← fs.lookup "path" >>= decString
        let x ← fs.lookup "x" >>= decFloat
        let y ← fs.lookup "y" >>= decFloat
        let w ← fs.lookup "w" >>= decFloat
        let h ← fs.lookup "h" >>= decFloat
        some (.image path x y w h)
      else if k = "Clear" then do
        let color ← fs.lookup "color" >>= decString
        some (.clear color)
      else none
    | _ => none
  | _ => none

/-- `Request::deserialize` with `IpcEncoding::Json`: read the `type` tag,
then the variant's fields from the same object. -/
def decRequest : Json → Option Request
  | .obj fs => do
    let tag ← fs.lookup "type" >>= decString
    if tag = "Handshake" then do
      let version ← fs.lookup "version" >>= decU32
      some (.handshake version)
    else if tag = "Render" then do
      let metadata ← fs.lookup "metadata" >>= decIconMetadata
      let context ← fs.lookup "context" >>= decRenderContext
      some (.render metadata context)
    else if tag = "Event" then do
      let event ← fs.lookup "event" >>= decIconEvent
      some (.event event)
    else if tag = "Position" then do
      let input ← fs.lookup "input" >>= decPositionInput
      some (.position input)
    else if tag = "Shutdown" then some .shutdown
    else none
  | _ => none

/-- `Response::deserialize` with `IpcEncoding::Json`. -/
def decResponse : Json → Option Response
  | .obj fs => do
    let tag ← fs.lookup "type" >>= decString
    if tag = "HandshakeAck" then do
      let version ← fs.lookup "version" >>= decU32
      let success ← fs.lookup "success" >>= decBool
      some (.handshakeAck version success)
    else if tag = "Render" then do
      let commands ← fs.lookup "commands" >>= decList decDrawCommand
      some (.render commands)
    else if tag = "Event" then do
      let handled ← fs.lookup "handled" >>= decBool
      let action ← fs.lookup "action" >>= decOpt decEventAction
      some (.event handled action)
    else if tag = "Position" then do
      let position ← fs.lookup "position" >>= decPosition
      some (.position position)
    else if tag = "Error" then do
      let message ← fs.lookup "message" >>= decString
      some (.error message)
    else if tag = "ShutdownAck" then some .shutdownAck
    else none
  | _ => none

/-! ### Well-formedness and the round-trip claims -/

/-! ### Well-formedness: the value is one a running daemon can hold — every
numeric field within its Rust type's range and every float finite. The
range side conditions are artifacts of embedding `u32`/`u64`/`i32` into
`Nat`/`Int`; the finiteness condition is the real content. -/

def wfU32 (n : Nat) : Prop := n < 4294967296

def wfU64 (n : Nat) : Prop := n < 18446744073709551616

def wfI32 (z : Int) : Prop := -2147483648 ≤ z ∧ z < 2147483648

def wfFloat (f : FloatVal) : Prop := f ≠ .nan ∧ f ≠ .inf ∧ f ≠ .neginf

def wfOpt (w : α → Prop) : Option α → Prop
  | none => True
  | some a => w a

def wfIconMetadata (m : IconMetadata) : Prop :=
  wfOpt wfU64 m.size ∧ wfU32 m.width ∧ wfU32 m.height

def wfIconEvent : IconEvent → Prop
  | .click button x y => wfU32 button ∧ wfFloat x ∧ wfFloat y
  | _ => True

def wfRenderContext (c : RenderContext) : Prop :=
  wfU32 c.canvas_width ∧ wfU32 c.canvas_height ∧ wfFloat c.device_pixel_ratio

def wfPositionInput (i : PositionInput) : Prop :=
  wfU32 i.screen_width ∧ wfU32 i.screen_height ∧ wfU32 i.icon_count ∧
  wfU32 i.icon_index ∧ wfOpt wfU32 i.cell_width ∧ wfOpt wfU32 i.cell_height

def wfPosition (p : Position) : Prop := wfI32 p.x ∧ wfI32 p.y

def wfDrawCommand : DrawCommand → Prop
  | .fillRect x y w h _ => wfFloat x ∧ wfFloat y ∧ wfFloat w ∧ wfFloat h
  | .strokeRect x y w h _ width =>
    wfFloat x ∧ wfFloat y ∧ wfFloat w ∧ wfFloat h ∧ wfFloat width
  | .fillCircle cx cy r _ => wfFloat cx ∧ wfFloat cy ∧ wfFloat r
  | .strokeCircle cx cy r _ width =>
    wfFloat cx ∧ wfFloat cy ∧ wfFloat r ∧ wfFloat width
  | .line x1 y1 x2 y2 _ width =>
    wfFloat x1 ∧ wfFloat y1 ∧ wfFloat x2 ∧ wfFloat y2 ∧ wfFloat width
  | .text _ x y size _ _ => wfFloat x ∧ wfFloat y ∧ wfFloat size
  | .image _ x y w h => wfFloat x ∧ wfFloat y ∧ wfFloat w ∧ wfFloat h
  | .clear _ => True

def wfRequest : Request → Prop
  | .handshake version => wfU32 version
  | .render metadata context => wfIconMetadata metadata ∧ wfRenderContext context
  | .event event => wfIconEvent event
  | .position input => wfPositionInput input
  | .shutdown => True

def wfResponse : Response → Prop
  | .handshakeAck version _ => wfU32 version
  | .render commands => ∀ c ∈ commands, wfDrawCommand c
  | .event _ _ => True
  | .position position => wfPosition position
  | .error _ => True
  | .shutdownAck => True

/-! ### Round-trip lemmas, leaves first -/

lemma decU32_encU {n : Nat} (h : wfU32 n) : decU32 (encU n) = some n := by
  show (if n < 4294967296 then some n else none) = some n
  exact if_pos h

lemma decU64_encU {n : Nat} (h : wfU64 n) : decU64 (encU n) = some n := by
  show (if n < 18446744073709551616 then some n else none) = some n
  exact if_pos h

lemma decU32_uint {n : Nat} (h : wfU32 n) : decU32 (.num (.uint n)) = some n :=
  decU32_encU h

lemma decU64_uint {n : Nat} (h : wfU64 n) : decU64 (.num (.uint n)) = some n :=
  decU64_encU h

lemma decI32_encI32 {z : Int} (h : wfI32 z) : decI32 (encI32 z) = some z := by
  obtain ⟨h1, h2⟩ := h
  rw [encI32]
  by_cases hz : 0 ≤ z
  · rw [if_pos hz]
    show (if z.toNat < 2147483648 then some ((z.toNat : Nat) : Int) else none) = some z
    rw [if_pos (by omega), Int.toNat_of_nonneg hz]
  · rw [if_neg hz]
    show (if -2147483648 ≤ z ∧ z < 0 then some z else none) = some z
    rw [if_pos (by omega)]

lemma decFloat_encFloat {f : FloatVal} (h : wfFloat f) :
    decFloat (encFloat f) = some f := by
  obtain ⟨h1, h2, h3⟩ := h
  cases f
  · rfl
  · exact absurd rfl h1
  · exact absurd rfl h2
  · exact absurd rfl h3

lemma decIconTypeIpc_enc (t : IconTypeIpc) :
    decIconTypeIpc (encIconTypeIpc t) = some t := by
  cases t <;> rfl

lemma decIconMetadata_enc {m : IconMetadata} (h : wfIconMetadata m) :
    decIconMetadata (encIconMetadata m) = some m := by
  obtain ⟨path, name, mime, isdir, size, w, hg, ity, sel, hov⟩ := m
  obtain ⟨hs, hw, hh⟩ := h
  rcases size with _ | sz
  · rcases mime with _ | ms <;>
      simp [encIconMetadata, decIconMetadata, List.lookup, decString, decBool,
        decOpt, encOpt, encU, decU32_uint hw, decU32_uint hh, decIconTypeIpc_enc,
        Option.bind]
  · simp only [wfOpt] at hs
    rcases mime with _ | ms <;>
      simp [encIconMetadata, decIconMetadata, List.lookup, decString, decBool,
        decOpt, encOpt, encU, decU32_uint hw, decU32_uint hh, decU64_uint hs,
        decIconTypeIpc_enc, Option.bind]


lemma decListAux_decString (paths : List String) :
    decListAux decString (paths.map Json.str) = some paths := by
  induction paths with
  | nil => rfl
  | cons p ps ih => simp [decListAux, ih, decString, Option.bind]

lemma decIconEvent_enc {e : IconEvent} (h : wfIconEvent e) :
    decIconEvent (encIconEvent e) = some e := by
  cases e with
  | click button x y =>
    obtain ⟨hb, hx, hy⟩ := h
    simp [encIconEvent, decIconEvent, List.lookup, encU, decU32_uint hb,
      decFloat_encFloat hx, decFloat_encFloat hy, Option.bind]
  | drop paths =>
    simp [encIconEvent, decIconEvent, List.lookup, decList,
      decListAux_decString, Option.bind]
  | hoverEnter => rfl
  | hoverExit => rfl
  | selected => rfl
  | deselected => rfl

lemma decRenderContext_enc {c : RenderContext} (h : wfRenderContext c) :
    decRenderContext (encRenderContext c) = some c := by
  obtain ⟨cw, ch, dpr⟩ := c
  obtain ⟨h1, h2, h3⟩ := h
  simp [encRenderContext, decRenderContext, List.lookup, encU,
    decU32_uint h1, decU32_uint h2, decFloat_encFloat h3, Option.bind]

lemma decPositionInput_enc {i : PositionInput} (h : wfPositionInput i) :
    decPositionInput (encPositionInput i) = some i := by
  obtain ⟨sw, sh, cnt, idx, cwo, cho⟩ := i
  obtain ⟨h1, h2, h3, h4, h5, h6⟩ := h
  rcases cwo with _ | cw
  · rcases cho with _ | ch
    · simp [encPositionInput, decPositionInput, List.lookup, encU, encOpt,
        decOpt, decU32_uint h1, decU32_uint h2, decU32_uint h3,
        decU32_uint h4, Option.bind]
    · simp only [wfOpt] at h6
      simp [encPositionInput, decPositionInput, List.lookup, encU, encOpt,
        decOpt, decU32_uint h1, decU32_uint h2, decU32_uint h3,
        decU32_uint h4, decU32_uint h6, Option.bind]
  · simp only [wfOpt] at h5
    rcases cho with _ | ch
    · simp [encPositionInput, decPositionInput, List.lookup, encU, encOpt,
        decOpt, decU32_uint h1, decU32_uint h2, decU32_uint h3,
        decU32_uint h4, decU32_uint h5, Option.bind]
    · simp only [wfOpt] at h6
      simp [encPositionInput, decPositionInput, List.lookup, encU, encOpt,
        decOpt, decU32_uint h1, decU32_uint h2, decU32_uint h3,
        decU32_uint h4, decU32_uint h5, decU32_uint h6, Option.bind]

lemma decPosition_enc {p : Position} (h : wfPosition p) :
    decPosition (encPosition p) = some p := by
  obtain ⟨x, y⟩ := p
  obtain ⟨h1, h2⟩ := h
  simp [encPosition, decPosition, List.lookup, decI32_encI32 h1,
    decI32_encI32 h2, Option.bind]

lemma decEventAction_enc (a : EventAction) :
    decEventAction (encEventAction a) = some a := by
  obtain ⟨action, payload⟩ := a
  rcases payload with _ | s <;>
    simp [encEventAction, decEventAction, List.lookup, encOpt, decOpt,
      decString, Option.bind]

lemma decDrawCommand_enc {c : DrawCommand} (h : wfDrawCommand c) :
    decDrawCommand (encDrawCommand c) = some c := by
  cases c with
  | fillRect x y w hh color =>
    obtain ⟨h1, h2, h3, h4⟩ := h
    simp [encDrawCommand, decDrawCommand, List.lookup, decString,
      decFloat_encFloat h1, decFloat_encFloat h2, decFloat_encFloat h3,
      decFloat_encFloat h4, Option.bind]
  | strokeRect x y w hh color width =>
    obtain ⟨h1, h2, h3, h4, h5⟩ := h
    simp [encDrawCommand, decDrawCommand, List.lookup, decString,
      decFloat_encFloat h1, decFloat_encFloat h2, decFloat_encFloat h3,
      decFloat_encFloat h4, decFloat_encFloat h5, Option.bind]
  | fillCircle cx cy r color =>
    obtain ⟨h1, h2, h3⟩ := h
    simp [encDrawCommand, decDrawCommand, List.lookup, decString,
      decFloat_encFloat h1, decFloat_encFloat h2, decFloat_encFloat h3,
      Option.bind]
  | strokeCircle cx cy r color width =>
    obtain ⟨h1, h2, h3, h4⟩ := h
    simp [encDrawCommand, decDrawCommand, List.lookup, decString,
      decFloat_encFloat h1, decFloat_encFloat h2, decFloat_encFloat h3,
      decFloat_encFloat h4, Option.bind]
  | line x1 y1 x2 y2 color width =>
    obtain ⟨h1, h2, h3, h4, h5⟩ := h
    simp [encDrawCommand, decDrawCommand, List.lookup, decString,
      decFloat_encFloat h1, decFloat_encFloat h2, decFloat_encFloat h3,
      decFloat_encFloat h4, decFloat_encFloat h5, Option.bind]
  | text text x y size color align =>
    obtain ⟨h1, h2, h3⟩ := h
    simp [encDrawCommand, decDrawCommand, List.lookup, decString,
      decFloat_encFloat h1, decFloat_encFloat h2, decFloat_encFloat h3,
      Option.bind]
  | image path x y w hh =>
    obtain ⟨h1, h2, h3, h4⟩ := h
    simp [encDrawCommand, decDrawCommand, List.lookup, decString,
      decFloat_encFloat h1, decFloat_encFloat h2, decFloat_encFloat h3,
      decFloat_encFloat h4, Option.bind]
  | clear color =>
    simp [encDrawCommand, decDrawCommand, List.lookup, decString, Option.bind]

lemma decListAux_decDrawCommand {cmds : List DrawCommand}
    (h : ∀ c ∈ cmds, wfDrawCommand c) :
    decListAux decDrawCommand (cmds.map encDrawCommand) = some cmds := by
  induction cmds with
  | nil => rfl
  | cons c cs ih =>
    simp [decListAux, decDrawCommand_enc (h c (by simp)),
      ih (fun d hd => h d (by simp [hd])), Option.bind]


/-- The variant-name tag a `Request` serializes under. -/
def requestTag : Request → String
  | .handshake _ => "Handshake"
  | .render _ _ => "Render"
  | .event _ => "Event"
  | .position _ => "Position"
  | .shutdown => "Shutdown"

/-- The variant-name tag a `Response` serializes under. -/
def responseTag : Response → String
  | .handshakeAck _ _ => "HandshakeAck"
  | .render _ => "Render"
  | .event _ _ => "Event"
  | .position _ => "Position"
  | .error _ => "Error"
  | .shutdownAck => "ShutdownAck"

/-- C7 (amended): for every `Request` and every `Response` value whose
numeric fields are within their Rust types' ranges and whose float-valued
fields are finite, decoding the tagged JSON encoding yields the value back;
and for every value of either type the serialized form is an object whose
string field `type` equals the variant's name. (The range conditions are
embedding artifacts — Rust's `u32`/`i32`/`u64` enforce them by typing; the
finiteness condition is the actual correction.) -/
theorem C7_roundtrip :
    (∀ r : Request, wfRequest r → decRequest (encRequest r) = some r) ∧
    (∀ s : Response, wfResponse s → decResponse (encResponse s) = some s) ∧
    (∀ r : Request, ∃ fields, encRequest r = .obj fields ∧
      fields.lookup "type" = some (.str (requestTag r))) ∧
    (∀ s : Response, ∃ fields, encResponse s = .obj fields ∧
      fields.lookup "type" = some (.str (responseTag s))) := by
  refine ⟨?_, ?_, ?_, ?_⟩
  · intro r h
    cases r with
    | handshake version =>
      simp [encRequest, decRequest, List.lookup, decString, encU,
        decU32_uint (show wfU32 version from h), Option.bind]
    | render metadata context =>
      obtain ⟨h1, h2⟩ := h
      simp [encRequest, decRequest, List.lookup, decString,
        decIconMetadata_enc h1, decRenderContext_enc h2, Option.bind]
    | event event =>
      simp [encRequest, decRequest, List.lookup, decString,
        decIconEvent_enc (show wfIconEvent event from h), Option.bind]
    | position input =>
      simp [encRequest, decRequest, List.lookup, decString,
        decPositionInput_enc (show wfPositionInput input from h), Option.bind]
    | shutdown => rfl
  · intro s h
    cases s with
    | handshakeAck version success =>
      simp [encResponse, decResponse, List.lookup, decString, decBool, encU,
        decU32_uint (show wfU32 version from h), Option.bind]
    | render commands =>
      simp [encResponse, decResponse, List.lookup, decString, decList,
        decListAux_decDrawCommand (show ∀ c ∈ commands, wfDrawCommand c from h),
        Option.bind]
    | event handled action =>
      rcases action with _ | a
      · simp [encResponse, decResponse, List.lookup, decString, decBool,
          encOpt, decOpt, Option.bind]
      · obtain ⟨act, pay⟩ := a
        rcases pay with _ | s <;>
          simp [encResponse, decResponse, List.lookup, decString, decBool,
            encOpt, decOpt, encEventAction, decEventAction, Option.bind]
    | position position =>
      simp [encResponse, decResponse, List.lookup, decString,
        decPosition_enc (show wfPosition position from h), Option.bind]
    | error message =>
      simp [encResponse, decResponse, List.lookup, decString, Option.bind]
    | shutdownAck => rfl
  · intro r
    cases r <;> exact ⟨_, rfl, rfl⟩
  · intro s
    cases s <;> exact ⟨_, rfl, rfl⟩

/-- C7 (counterexample): the claim quantifies over arbitrary field
contents, but a `Click` event whose `x` is NaN does not round-trip:
serde_json serializes a non-finite float as `null`, and deserializing
`null` back into the float field fails, so `decode(encode(m))` is an error
rather than `m`. -/
theorem C7_counterexample :
    decRequest (encRequest (.event (.click 1 .nan (.finite 0)))) ≠
      some (.event (.click 1 .nan (.finite 0))) := by decide

/-- C7 witness: the round-trip theorem applied to `Handshake{version: 1}`
and to `Render{commands: [Clear{#000000}]}`. -/
theorem C7_witness :
    (wfRequest (.handshake 1) ∧
      decRequest (encRequest (.handshake 1)) = some (.handshake 1)) ∧
    (wfResponse (.render [.clear "#000000"]) ∧
      decResponse (encResponse (.render [.clear "#000000"])) =
        some (.render [.clear "#000000"])) :=
  ⟨⟨by norm_num [wfRequest, wfU32],
    C7_roundtrip.1 (.handshake 1) (by norm_num [wfRequest, wfU32])⟩,
   ⟨by simp [wfResponse, wfDrawCommand],
    C7_roundtrip.2.1 (.render [.clear "#000000"])
      (by simp [wfResponse, wfDrawCommand])⟩⟩

end CvhIcons
